import Mathlib

/-!
# Verification of the adaptive-testing engine

Shallow embedding of the adaptive-testing engine
(`app/utils/adaptive_algorithm.py` and `app/models/question.py`):
ability estimation by Newton-Raphson over the 3PL item-response model,
Fisher-information item selection, standard-error computation,
termination criteria, and the online psychometric updater.

Machine floats are modelled by real numbers; item parameters and the
values stored in dictionaries are rationals coerced into `ℝ`.
Python dictionary access with a default (`q.get(key, default)`) is
modelled with `Option` fields and `Option.getD`.
-/

namespace Adaptive

/-- One administered response event, as consumed by the ability
estimator: `response.get('is_correct', 0)` treats a missing key as 0,
i.e. as an incorrect response, so a `Bool` field is faithful. -/
structure Response where
  is_correct : Bool
deriving DecidableEq

/-- The numeric value Python arithmetic gives to the response's
`is_correct` field (`True` is 1, `False`/missing is 0). -/
def rVal (r : Response) : ℝ :=
  if r.is_correct then 1 else 0

/-- An item of the pool, with the psychometric fields the algorithm reads
through `dict.get` with defaults.  A `none` field models a missing key. -/
structure Question where
  idStr : Option String := none
  discrimination : Option ℚ := none
  difficulty : Option ℚ := none
  guessing : Option ℚ := none
  upper_asymptote : Option ℚ := none
  difficulty_score : Option ℚ := none
deriving DecidableEq

/-- `question.get('discrimination', 0.5)`. -/
def qA (q : Question) : ℚ := q.discrimination.getD (1/2)

/-- `question.get('difficulty', 0.5)`. -/
def qB (q : Question) : ℚ := q.difficulty.getD (1/2)

/-- `question.get('guessing', 0.25)`. -/
def qC (q : Question) : ℚ := q.guessing.getD (1/4)

/-- `question.get('upper_asymptote', 1.0)`. -/
def qD (q : Question) : ℚ := q.upper_asymptote.getD 1

/-- 3PL response probability
`p = c + (d - c) / (1 + exp(-a*(theta - b)))` as computed in
`estimate_ability` and `calculate_information`. -/
noncomputable def prob (q : Question) (θ : ℝ) : ℝ :=
  (qC q : ℝ) + ((qD q : ℝ) - (qC q : ℝ)) /
    (1 + Real.exp (-((qA q : ℝ) * (θ - (qB q : ℝ)))))

/-- The per-item first-derivative term
`a * (r - p) * (d - c) / pq` with `pq = p*(1-p)`. -/
noncomputable def firstDerivTerm (r : Response) (q : Question) (θ : ℝ) : ℝ :=
  let p := prob q θ
  let pq := p * (1 - p)
  (qA q : ℝ) * (rVal r - p) * ((qD q : ℝ) - (qC q : ℝ)) / pq

/-- The per-item second-derivative term
`-a * a * (d - c) * (d - c) / (pq * pq)`. -/
noncomputable def secondDerivTerm (q : Question) (θ : ℝ) : ℝ :=
  let p := prob q θ
  let pq := p * (1 - p)
  let num := -((qA q : ℝ) * (qA q : ℝ)) * ((qD q : ℝ) - (qC q : ℝ)) * ((qD q : ℝ) - (qC q : ℝ))
  num / (pq * pq)

/-- Sum of first-derivative terms over the administered items.  The
source iterates `for i, response in enumerate(responses)` and skips
`i >= len(questions)`, which is exactly a traversal of
`responses.zip questions`. -/
noncomputable def firstDerivative (rs : List Response) (qs : List Question) (θ : ℝ) : ℝ :=
  ((rs.zip qs).map (fun pr => firstDerivTerm pr.1 pr.2 θ)).sum

/-- Sum of second-derivative terms over the administered items. -/
noncomputable def secondDerivative (rs : List Response) (qs : List Question) (θ : ℝ) : ℝ :=
  ((rs.zip qs).map (fun pr => secondDerivTerm pr.2 θ)).sum

/-- The convergence tolerance of the Newton-Raphson loop. -/
noncomputable def tolerance : ℝ := 1/1000

/-- `max_iterations = 50`. -/
def maxIterations : Nat := 50

/-- The Newton-Raphson loop of `estimate_ability`, with the fuel counting
the remaining iterations.  Each iteration first computes the second
derivative and stops (returning the current `θ`) when it is below
tolerance, otherwise computes the update and stops (again returning the
current `θ`, since the Python loop `break`s before the assignment) when
the step is below tolerance. -/
noncomputable def nrLoop (rs : List Response) (qs : List Question) : Nat → ℝ → ℝ
  | 0, θ => θ
  | n+1, θ =>
    let L2 := secondDerivative rs qs θ
    if |L2| < tolerance then θ
    else
      let θn := θ - firstDerivative rs qs θ / L2
      if |θn - θ| < tolerance then θ
      else nrLoop rs qs n θn

/-- `estimate_ability`: 0.0 for an empty response list, otherwise 50
Newton-Raphson iterations from `θ = 0`. -/
noncomputable def estimate_ability (rs : List Response) (qs : List Question) : ℝ :=
  if rs = [] then 0 else nrLoop rs qs maxIterations 0

/-- `calculate_information`: Fisher information
`a^2 (d-c)^2 / (p (1-p))` at ability `θ`. -/
noncomputable def calculate_information (θ : ℝ) (q : Question) : ℝ :=
  let p := prob q θ
  (qA q : ℝ) * (qA q : ℝ) * ((qD q : ℝ) - (qC q : ℝ)) *
    ((qD q : ℝ) - (qC q : ℝ)) / (p * (1 - p))

/-- The information sum of `calculate_standard_error`: the source adds
`calculate_information(theta, questions[i])` for `i < len(questions)`
over the enumerated responses, i.e. over `responses.zip questions`. -/
noncomputable def informationSum (rs : List Response) (qs : List Question) (θ : ℝ) : ℝ :=
  ((rs.zip qs).map (fun pr => calculate_information θ pr.2)).sum

/-- `calculate_standard_error`: 1.0 for an empty response list or a zero
information sum, else `1 / sqrt (information_sum)` at the estimated
ability. -/
noncomputable def calculate_standard_error (rs : List Response) (qs : List Question) : ℝ :=
  if rs = [] then 1
  else
    let θ := estimate_ability rs qs
    let s := informationSum rs qs θ
    if s = 0 then 1 else 1 / Real.sqrt s

/-- The result record of `should_terminate`. -/
structure TerminationDecision where
  should_terminate : Bool
  reasons : List String
  num_questions : Nat
  standard_error : ℝ
  ability_estimate : ℝ

/-- `max_questions or self.termination_criteria['max_questions']`:
Python `or` replaces both `None` and the falsy `0` by the default 50. -/
def resolveMaxQuestions (mq : Option Int) : Int :=
  match mq with
  | none => 50
  | some m => if m = 0 then 50 else m

/-- `min_questions` from the default termination criteria. -/
def min_questions : Int := 10

/-- `standard_error_threshold` from the default termination criteria. -/
noncomputable def se_threshold : ℝ := 3/10

/-- `should_terminate`: evaluates both criteria and returns the decision
record; the reasons list keeps the source's order (`max_questions_reached`
first). -/
noncomputable def should_terminate (rs : List Response) (qs : List Question)
    (mq : Option Int) : TerminationDecision :=
  let maxQ := resolveMaxQuestions mq
  let se := calculate_standard_error rs qs
  let n : Int := rs.length
  let reasons : List String :=
    (if n ≥ maxQ then ["max_questions_reached"] else []) ++
    (if n ≥ min_questions ∧ se ≤ se_threshold then ["sufficient_precision"] else [])
  { should_terminate := !reasons.isEmpty
    reasons := reasons
    num_questions := rs.length
    standard_error := se
    ability_estimate := estimate_ability rs qs }

/-- The failure mode of `select_next_question`'s fallback branch: the
source executes `random.choice(unanswered)` but never imports the
`random` module, so the branch raises `NameError` at run time. -/
inductive SelectError where
  | randomNotImported
deriving DecidableEq

/-- `q.get('id') not in answered_questions`: a question with no id is
never considered answered (Python `None not in list_of_strings`). -/
def answeredContains (answered : List String) (q : Question) : Bool :=
  match q.idStr with
  | some s => answered.contains s
  | none => false

/-- The `maximum_information` accumulator loop: `best_question = None`,
`max_information = 0`, strict `>` comparison. -/
noncomputable def maxInfoStep (θ : ℝ) (acc : Option Question × ℝ) (q : Question) :
    Option Question × ℝ :=
  let info := calculate_information θ q
  if info > acc.2 then (some q, info) else acc

/-- `maximum_information` selection over the unanswered list. -/
noncomputable def maxInfoSelect (θ : ℝ) (unanswered : List Question) : Option Question :=
  (unanswered.foldl (maxInfoStep θ) ((none : Option Question), (0 : ℝ))).1

/-- The `closest_difficulty` accumulator loop: `min_distance` starts at
`float('inf')`, modelled by `none`. -/
noncomputable def closestStep (θ : ℝ) (acc : Option Question × Option ℝ) (q : Question) :
    Option Question × Option ℝ :=
  let dist := |(q.difficulty_score.getD 50 : ℝ) - θ|
  match acc.2 with
  | none => (some q, some dist)
  | some m => if dist < m then (some q, some dist) else acc

/-- `closest_difficulty` selection over the unanswered list. -/
noncomputable def closestSelect (θ : ℝ) (unanswered : List Question) : Option Question :=
  (unanswered.foldl (closestStep θ) ((none : Option Question), (none : Option ℝ))).1

/-- `select_next_question`: filters the already-answered items, then
dispatches on the strategy string; the final `else` branch is the
unimported `random.choice` call. -/
noncomputable def select_next_question (strategy : String) (ability : ℝ)
    (available : List Question) (answered : List String) :
    Except SelectError (Option Question) :=
  if available = [] then .ok none
  else
    let unanswered := available.filter (fun q => !answeredContains answered q)
    if unanswered = [] then .ok none
    else if strategy = "maximum_information" then .ok (maxInfoSelect ability unanswered)
    else if strategy = "closest_difficulty" then .ok (closestSelect ability unanswered)
    else .error .randomNotImported

/-- The mutable psychometric fields of a stored `Question` document. -/
structure Psychometrics where
  discrimination : ℚ
  difficulty : ℚ
  guessing : ℚ
  upper_asymptote : ℚ
deriving DecidableEq

/-- One aggregated response record consumed by
`Question.update_psychometrics`: `r.get('is_correct', False)` and
`r.get('user_ability', 0)`. -/
structure PsyResponse where
  is_correct : Bool
  user_ability : Option ℚ
deriving DecidableEq

/-- The sort key `x.get('user_ability', 0)`. -/
def abilityKey (r : PsyResponse) : ℚ := r.user_ability.getD 0

/-- `Question.update_psychometrics`, as a pure function on the
psychometric record: no-op on an empty batch; difficulty becomes the
proportion correct; discrimination becomes the top-third/bottom-third
difference only when both partition sizes are positive.  Python's
`sorted(..., key=..., reverse=True)` is a stable descending sort,
matched by `mergeSort` with the reversed non-strict comparison. -/
def update_psychometrics (psy : Psychometrics) (responses : List PsyResponse) :
    Psychometrics :=
  if responses = [] then psy
  else
    let total := responses.length
    let correct := (responses.filter (·.is_correct)).length
    let psy1 := { psy with difficulty := (correct : ℚ) / (total : ℚ) }
    let sorted := responses.mergeSort (fun x y => decide (abilityKey y ≤ abilityKey x))
    let top := (total + 2) / 3
    let bottom := total / 3
    let topCorrect := ((sorted.take top).filter (·.is_correct)).length
    let bottomCorrect := ((sorted.drop (total - bottom)).filter (·.is_correct)).length
    if top > 0 ∧ bottom > 0 then
      { psy1 with
        discrimination := (topCorrect : ℚ) / (top : ℚ) - (bottomCorrect : ℚ) / (bottom : ℚ) }
    else psy1

/-! ## Helper lemmas -/

/-- Zipping truncates to the shorter list, so responses beyond the item
list never contribute. -/
theorem zip_take_left {α β : Type} (l : List α) (m : List β) :
    l.zip m = (l.take m.length).zip m := by
  induction l generalizing m with
  | nil => simp
  | cons a t ih =>
    cases m with
    | nil => simp
    | cons b s => simpa using ih s

/-- Unfolding one Newton-Raphson iteration when the second derivative is
below tolerance: the loop stops at the current `θ`. -/
theorem nrLoop_flat {rs : List Response} {qs : List Question} {n : Nat} {θ : ℝ}
    (h : |secondDerivative rs qs θ| < tolerance) :
    nrLoop rs qs (n + 1) θ = θ := by
  rw [nrLoop]
  simp [h]

/-- The second derivative over an empty zip is zero. -/
theorem secondDerivative_nil_right (rs : List Response) (θ : ℝ) :
    secondDerivative rs [] θ = 0 := by
  simp [secondDerivative]

/-- The logistic factor `1 / (1 + exp (-z))` lies strictly between 0
and 1. -/
theorem logistic_mem_Ioo (z : ℝ) :
    0 < 1 / (1 + Real.exp (-z)) ∧ 1 / (1 + Real.exp (-z)) < 1 := by
  have hE : 0 < Real.exp (-z) := Real.exp_pos _
  have h1 : 0 < 1 + Real.exp (-z) := by linarith
  constructor
  · positivity
  · rw [div_lt_one h1]
    linarith

/-! ## C3: empty history default and standard-error formula -/

/-- C3: with an empty response list the ability estimate is `θ = 0.0`
and the standard error is 1.0; otherwise the standard error is
`1 / sqrt` of the Fisher-information sum at the estimated ability, and
1.0 instead when that sum is zero. -/
theorem standard_error_empty_and_formula (rs : List Response) (qs : List Question)
    (h : rs ≠ []) :
    estimate_ability [] qs = 0 ∧
    calculate_standard_error [] qs = 1 ∧
    calculate_standard_error rs qs =
      (if informationSum rs qs (estimate_ability rs qs) = 0 then 1
       else 1 / Real.sqrt (informationSum rs qs (estimate_ability rs qs))) := by
  refine ⟨by simp [estimate_ability], by simp [calculate_standard_error], ?_⟩
  simp [calculate_standard_error, h]

/-- Witness for `standard_error_empty_and_formula` at a one-response
history with an empty item pool. -/
theorem standard_error_empty_and_formula_witness :
    ([Response.mk false] : List Response) ≠ [] ∧
    (estimate_ability [] ([] : List Question) = 0 ∧
     calculate_standard_error [] ([] : List Question) = 1 ∧
     calculate_standard_error [Response.mk false] [] =
       (if informationSum [Response.mk false] []
            (estimate_ability [Response.mk false] []) = 0 then 1
        else 1 / Real.sqrt (informationSum [Response.mk false] []
            (estimate_ability [Response.mk false] [])))) :=
  ⟨by decide, standard_error_empty_and_formula [Response.mk false] [] (by decide)⟩

/-! ## C7: mismatched lengths are silently truncated, not an error -/

/-- Counterexample to C7 as stated: with one response and an empty item
sequence (mismatched lengths) the estimator does not fail; it silently
computes the value 0. -/
theorem estimate_mismatched_silent :
    ([Response.mk true] : List Response).length > ([] : List Question).length ∧
    estimate_ability [Response.mk true] [] = 0 := by
  refine ⟨by decide, ?_⟩
  rw [estimate_ability, if_neg (by decide)]
  show nrLoop _ _ (49 + 1) 0 = 0
  rw [nrLoop_flat]
  rw [secondDerivative_nil_right]
  simp [tolerance]

/-- C7 amended: the estimator raises no error on mismatched lengths;
responses beyond the item sequence are ignored, so the estimate equals
the estimate over the truncated response list. -/
theorem estimate_ignores_extra_responses (rs : List Response) (qs : List Question) :
    estimate_ability rs qs = estimate_ability (rs.take qs.length) qs := by
  have hfd : ∀ θ, firstDerivative rs qs θ = firstDerivative (rs.take qs.length) qs θ := by
    intro θ; rw [firstDerivative, firstDerivative, zip_take_left]
  have hsd : ∀ θ, secondDerivative rs qs θ = secondDerivative (rs.take qs.length) qs θ := by
    intro θ; rw [secondDerivative, secondDerivative, zip_take_left]
  have hloop : ∀ n θ, nrLoop rs qs n θ = nrLoop (rs.take qs.length) qs n θ := by
    intro n
    induction n with
    | zero => intro θ; rfl
    | succ n ih =>
      intro θ
      simp only [nrLoop, ← hfd, ← hsd]
      split_ifs with h2 h3
      · rfl
      · rfl
      · exact ih _
  by_cases hrs : rs = []
  · subst hrs; simp
  · by_cases hqs : qs = []
    · subst hqs
      rw [estimate_ability, if_neg hrs, estimate_ability]
      simp only [List.length_nil, List.take_zero, if_pos rfl]
      show nrLoop _ _ (49 + 1) 0 = 0
      rw [nrLoop_flat]
      rw [secondDerivative_nil_right]
      simp [tolerance]
    · have htk : rs.take qs.length ≠ [] := by
        cases rs with
        | nil => exact absurd rfl hrs
        | cons a t =>
          cases qs with
          | nil => exact absurd rfl hqs
          | cons b s => simp
      rw [estimate_ability, estimate_ability, if_neg hrs, if_neg htk]
      exact hloop _ _

/-! ## C8: no clamping of the response probability -/

/-- An item whose guessing floor and upper asymptote are both 0: the
parameters satisfy the `0 ≤ c ≤ d ≤ 1`, `a ≥ 0` invariant, yet the
response probability degenerates to exactly 0. -/
def degenerateItem : Question :=
  { discrimination := some 1, difficulty := some 0,
    guessing := some 0, upper_asymptote := some 0 }

/-- Counterexample to C8 as stated: the code performs no clamping; for
the valid parameters `a = 1, b = 0, c = 0, d = 0` (satisfying
`0 ≤ c ≤ d ≤ 1`, `a ≥ 0`) the probability is exactly 0 and
`pq = p(1-p)` is exactly 0, so the divisions are by zero. -/
theorem prob_zero_no_clamp :
    0 ≤ qA degenerateItem ∧ 0 ≤ qC degenerateItem ∧
    qC degenerateItem ≤ qD degenerateItem ∧ qD degenerateItem ≤ 1 ∧
    prob degenerateItem 0 = 0 ∧
    prob degenerateItem 0 * (1 - prob degenerateItem 0) = 0 := by
  have hp : prob degenerateItem 0 = 0 := by
    simp [prob, qC, qD, degenerateItem]
  refine ⟨?_, ?_, ?_, ?_, hp, by rw [hp]; ring⟩ <;>
    norm_num [qA, qC, qD, degenerateItem]

/-- C8 amended: no clamping is performed; instead, for parameters with
`0 ≤ c ≤ d ≤ 1` the probability lies strictly between 0 and 1 — so
`pq = p(1-p)` is nonzero — exactly as long as not both `c = d = 0` and
not both `c = d = 1`. -/
theorem prob_in_open_interval (q : Question) (θ : ℝ)
    (hc0 : 0 ≤ qC q) (hcd : qC q ≤ qD q) (hd1 : qD q ≤ 1)
    (h00 : ¬(qC q = 0 ∧ qD q = 0)) (h11 : ¬(qC q = 1 ∧ qD q = 1)) :
    0 < prob q θ ∧ prob q θ < 1 ∧ prob q θ * (1 - prob q θ) ≠ 0 := by
  set z : ℝ := (qA q : ℝ) * (θ - (qB q : ℝ)) with hz
  have hs := logistic_mem_Ioo z
  set s : ℝ := 1 / (1 + Real.exp (-z)) with hsdef
  have hprob : prob q θ = (qC q : ℝ) + ((qD q : ℝ) - (qC q : ℝ)) * s := by
    rw [prob, hsdef]
    ring
  have hcR : (0 : ℝ) ≤ (qC q : ℝ) := by exact_mod_cast hc0
  have hcdR : (qC q : ℝ) ≤ (qD q : ℝ) := by exact_mod_cast hcd
  have hdR : (qD q : ℝ) ≤ 1 := by exact_mod_cast hd1
  have hpos : 0 < prob q θ := by
    rw [hprob]
    rcases lt_or_eq_of_le hcR with h | h
    · nlinarith [hs.1, hs.2]
    · have hd0 : (0 : ℝ) < (qD q : ℝ) := by
        rcases lt_or_eq_of_le hcdR with h2 | h2
        · linarith
        · exfalso
          exact h00 ⟨by exact_mod_cast h.symm, by exact_mod_cast (h.trans h2).symm⟩
      nlinarith [hs.1, hs.2]
  have hlt : prob q θ < 1 := by
    rw [hprob]
    rcases lt_or_eq_of_le hdR with h | h
    · nlinarith [hs.1, hs.2]
    · have hc1 : (qC q : ℝ) < 1 := by
        rcases lt_or_eq_of_le hcdR with h2 | h2
        · linarith
        · exfalso
          exact h11 ⟨by exact_mod_cast (h2.trans h), by exact_mod_cast h⟩
      nlinarith [hs.1, hs.2]
  exact ⟨hpos, hlt, by nlinarith⟩

/-- The all-defaults item (every psychometric key missing). -/
def defaultItem : Question := {}

/-- Witness for `prob_in_open_interval` at the default-parameter item. -/
theorem prob_in_open_interval_witness :
    (0 ≤ qC defaultItem ∧ qC defaultItem ≤ qD defaultItem ∧
     qD defaultItem ≤ 1 ∧ ¬(qC defaultItem = 0 ∧ qD defaultItem = 0) ∧
     ¬(qC defaultItem = 1 ∧ qD defaultItem = 1)) ∧
    (0 < prob defaultItem 0 ∧ prob defaultItem 0 < 1 ∧
     prob defaultItem 0 * (1 - prob defaultItem 0) ≠ 0) :=
  ⟨⟨by norm_num [qC, defaultItem], by norm_num [qC, qD, defaultItem],
    by norm_num [qD, defaultItem], by norm_num [qC, qD, defaultItem],
    by norm_num [qC, qD, defaultItem]⟩,
   prob_in_open_interval defaultItem 0 (by norm_num [qC, defaultItem])
     (by norm_num [qC, qD, defaultItem]) (by norm_num [qD, defaultItem])
     (by norm_num [qC, qD, defaultItem]) (by norm_num [qC, qD, defaultItem])⟩

/-! ## C9: the random fallback branch raises NameError -/

/-- C9: the fallback `random` strategy does not return a member of the
unanswered set: `random.choice` is executed without the `random` module
ever being imported, so the branch fails with `NameError` even on a
non-empty unanswered set. -/
theorem random_branch_name_error :
    select_next_question "random" 0 [{ idStr := some "q1" }] [] =
      .error .randomNotImported := by
  rw [select_next_question, if_neg (by decide)]
  simp [answeredContains]

/-! ## C2: termination decision -/

/-- C2: `should_terminate` is true iff at least one criterion fired;
`max_questions_reached` fires exactly when the administered count is at
least the (resolved) maximum; `sufficient_precision` fires exactly when
the count is at least `min_questions` and the standard error is at most
the threshold; membership of both reasons is characterized, so both are
recorded when both fire. -/
theorem termination_reasons_iff (rs : List Response) (qs : List Question)
    (mq : Option Int) :
    ((should_terminate rs qs mq).should_terminate = true ↔
      (should_terminate rs qs mq).reasons ≠ []) ∧
    ("max_questions_reached" ∈ (should_terminate rs qs mq).reasons ↔
      (rs.length : Int) ≥ resolveMaxQuestions mq) ∧
    ("sufficient_precision" ∈ (should_terminate rs qs mq).reasons ↔
      ((rs.length : Int) ≥ min_questions ∧
       calculate_standard_error rs qs ≤ se_threshold)) := by
  classical
  unfold should_terminate
  by_cases h1 : (rs.length : Int) ≥ resolveMaxQuestions mq <;>
    by_cases h2 : (rs.length : Int) ≥ min_questions ∧
        calculate_standard_error rs qs ≤ se_threshold <;>
    simp [h1, h2]

/-! ## C10: missing psychometric fields fall back to defaults -/

/-- C10: a missing psychometric key is read through its default
(discrimination 0.5, difficulty 0.5, guessing 0.25, upper asymptote 1.0)
rather than failing; an item missing all keys yields exactly the
probability, derivative terms and Fisher information of the
default-parameter 3PL curve. -/
theorem default_psychometrics_used (q : Question) (θ : ℝ) (r : Response) :
    (q.discrimination = none → qA q = 1/2) ∧
    (q.difficulty = none → qB q = 1/2) ∧
    (q.guessing = none → qC q = 1/4) ∧
    (q.upper_asymptote = none → qD q = 1) ∧
    (q.discrimination = none ∧ q.difficulty = none ∧ q.guessing = none ∧
       q.upper_asymptote = none →
     prob q θ = prob defaultItem θ ∧
     firstDerivTerm r q θ = firstDerivTerm r defaultItem θ ∧
     secondDerivTerm q θ = secondDerivTerm defaultItem θ ∧
     calculate_information θ q = calculate_information θ defaultItem) := by
  refine ⟨fun h => by rw [qA, h]; rfl, fun h => by rw [qB, h]; rfl,
    fun h => by rw [qC, h]; rfl, fun h => by rw [qD, h]; rfl, ?_⟩
  rintro ⟨h1, h2, h3, h4⟩
  have ha : qA q = qA defaultItem := by rw [qA, qA, h1]; rfl
  have hb : qB q = qB defaultItem := by rw [qB, qB, h2]; rfl
  have hc : qC q = qC defaultItem := by rw [qC, qC, h3]; rfl
  have hd : qD q = qD defaultItem := by rw [qD, qD, h4]; rfl
  have hp : prob q θ = prob defaultItem θ := by rw [prob, prob, ha, hb, hc, hd]
  refine ⟨hp, ?_, ?_, ?_⟩
  · rw [firstDerivTerm, firstDerivTerm, ha, hc, hd, hp]
  · rw [secondDerivTerm, secondDerivTerm, ha, hc, hd, hp]
  · rw [calculate_information, calculate_information, ha, hc, hd, hp]

/-- Witness for `default_psychometrics_used` at the all-defaults item. -/
theorem default_psychometrics_used_witness :
    (defaultItem.discrimination = none ∧ defaultItem.difficulty = none ∧
     defaultItem.guessing = none ∧ defaultItem.upper_asymptote = none) ∧
    qA defaultItem = 1/2 ∧ qB defaultItem = 1/2 ∧ qC defaultItem = 1/4 ∧
    qD defaultItem = 1 ∧
    calculate_information 0 defaultItem = calculate_information 0 defaultItem := by
  have h := default_psychometrics_used defaultItem 0 (Response.mk true)
  exact ⟨⟨rfl, rfl, rfl, rfl⟩, h.1 rfl, h.2.1 rfl, h.2.2.1 rfl, h.2.2.2.1 rfl, rfl⟩

/-! ## C5: the psychometric updater -/

/-- The descending stable sort used by `update_psychometrics`. -/
def sortByAbilityDesc (rs : List PsyResponse) : List PsyResponse :=
  rs.mergeSort (fun x y => decide (abilityKey y ≤ abilityKey x))

/-- C5: `update_psychometrics` is a no-op on an empty batch; otherwise it
sets difficulty to (count correct)/n, and, exactly when both the
top-third size `⌈n/3⌉ = (n+2)/3` and the bottom-third size `⌊n/3⌋` are
positive, sets discrimination to the difference of the correct
proportions of the top and bottom thirds of the descending-ability
order, leaving it unchanged otherwise (and never touching the other
fields). -/
theorem update_psychometrics_batch (psy : Psychometrics) (rs : List PsyResponse)
    (h : rs ≠ []) :
    update_psychometrics psy [] = psy ∧
    (update_psychometrics psy rs).difficulty =
      ((rs.filter (·.is_correct)).length : ℚ) / (rs.length : ℚ) ∧
    (0 < (rs.length + 2) / 3 ∧ 0 < rs.length / 3 →
      (update_psychometrics psy rs).discrimination =
        ((((sortByAbilityDesc rs).take ((rs.length + 2) / 3)).filter
            (·.is_correct)).length : ℚ) / (((rs.length + 2) / 3 : ℕ) : ℚ) -
        ((((sortByAbilityDesc rs).drop (rs.length - rs.length / 3)).filter
            (·.is_correct)).length : ℚ) / ((rs.length / 3 : ℕ) : ℚ)) ∧
    (¬(0 < (rs.length + 2) / 3 ∧ 0 < rs.length / 3) →
      (update_psychometrics psy rs).discrimination = psy.discrimination) ∧
    (update_psychometrics psy rs).guessing = psy.guessing ∧
    (update_psychometrics psy rs).upper_asymptote = psy.upper_asymptote := by
  refine ⟨rfl, ?_⟩
  rw [update_psychometrics, if_neg h]
  simp only [sortByAbilityDesc]
  split_ifs with hg
  · exact ⟨rfl, fun _ => rfl, fun hn => absurd hg hn, rfl, rfl⟩
  · exact ⟨rfl, fun hp => absurd hp hg, fun _ => rfl, rfl, rfl⟩

/-- Witness for `update_psychometrics_batch`: a batch of three responses
with two correct sets difficulty to 2/3 and discrimination to
`1/1 - 0/1 = 1`. -/
theorem update_psychometrics_batch_witness :
    ([⟨true, some 2⟩, ⟨true, some 1⟩, ⟨false, some 0⟩] : List PsyResponse) ≠ [] ∧
    (update_psychometrics ⟨1/2, 1/2, 1/4, 1⟩
      [⟨true, some 2⟩, ⟨true, some 1⟩, ⟨false, some 0⟩]).difficulty = 2/3 ∧
    (update_psychometrics ⟨1/2, 1/2, 1/4, 1⟩
      [⟨true, some 2⟩, ⟨true, some 1⟩, ⟨false, some 0⟩]).discrimination = 1 := by
  have h := update_psychometrics_batch ⟨1/2, 1/2, 1/4, 1⟩
    [⟨true, some 2⟩, ⟨true, some 1⟩, ⟨false, some 0⟩] (by simp)
  refine ⟨by simp, ?_, ?_⟩
  · rw [h.2.1]
    norm_num [List.filter]
  · rw [h.2.2.1 (by norm_num)]
    norm_num [sortByAbilityDesc, List.mergeSort, abilityKey, List.filter]

/-! ## C4: maximum-information selection -/

/-- Characterization of the `maximum_information` accumulator fold: it
either leaves the accumulator untouched (when no item strictly beats the
running maximum) or returns the last item that strictly beat it — which
is the first item attaining the final maximum. -/
theorem maxInfoFold_characterize (θ : ℝ) (l : List Question)
    (acc : Option Question × ℝ) :
    (l.foldl (maxInfoStep θ) acc = acc ∧
      ∀ q ∈ l, calculate_information θ q ≤ acc.2) ∨
    (∃ pre q post, l = pre ++ q :: post ∧
      l.foldl (maxInfoStep θ) acc = (some q, calculate_information θ q) ∧
      acc.2 < calculate_information θ q ∧
      (∀ p ∈ pre, calculate_information θ p < calculate_information θ q) ∧
      (∀ p ∈ post, calculate_information θ p ≤ calculate_information θ q)) := by
  induction l generalizing acc with
  | nil => exact Or.inl ⟨rfl, by simp⟩
  | cons a t ih =>
    by_cases ha : calculate_information θ a > acc.2
    · have hstep : maxInfoStep θ acc a = (some a, calculate_information θ a) := by
        rw [maxInfoStep]
        simp [ha]
      rcases ih (some a, calculate_information θ a) with ⟨heq, hall⟩ | ⟨pre, q, post, hsplit, hres, hlt, hpre, hpost⟩
      · refine Or.inr ⟨[], a, t, by simp, ?_, ha, by simp, ?_⟩
        · rw [List.foldl_cons, hstep, heq]
        · intro p hp
          simpa using hall p hp
      · refine Or.inr ⟨a :: pre, q, post, by simp [hsplit], ?_, ?_, ?_, hpost⟩
        · rw [List.foldl_cons, hstep, hres]
        · exact lt_trans ha hlt
        · intro p hp
          rcases List.mem_cons.1 hp with rfl | hp
          · exact hlt
          · exact hpre p hp
    · have hstep : maxInfoStep θ acc a = acc := by
        rw [maxInfoStep]
        simp [ha]
      rcases ih acc with ⟨heq, hall⟩ | ⟨pre, q, post, hsplit, hres, hlt, hpre, hpost⟩
      · refine Or.inl ⟨by rw [List.foldl_cons, hstep, heq], ?_⟩
        intro p hp
        rcases List.mem_cons.1 hp with rfl | hp
        · exact le_of_not_lt ha
        · exact hall p hp
      · refine Or.inr ⟨a :: pre, q, post, by simp [hsplit], ?_, hlt, ?_, hpost⟩
        · rw [List.foldl_cons, hstep, hres]
        · intro p hp
          rcases List.mem_cons.1 hp with rfl | hp
          · exact lt_of_le_of_lt (le_of_not_lt ha) hlt
          · exact hpre p hp

/-- Counterexample to C4 as stated: a single unanswered item of zero
discrimination has Fisher information 0, which never strictly beats the
initial maximum of 0, so selection returns `none` on a non-empty
unanswered set. -/
theorem maxinfo_none_on_nonempty :
    (([{ idStr := some "q1", discrimination := some 0 }] : List Question).filter
        (fun q => !answeredContains [] q)) ≠ [] ∧
    select_next_question "maximum_information" 0
      [{ idStr := some "q1", discrimination := some 0 }] [] = .ok none := by
  constructor
  · simp [answeredContains]
  · rw [select_next_question, if_neg (by decide)]
    have hfilter : (([{ idStr := some "q1", discrimination := some 0 }] :
        List Question).filter (fun q => !answeredContains [] q)) =
        [{ idStr := some "q1", discrimination := some 0 }] := by
      simp [answeredContains]
    rw [hfilter]
    have hinfo : calculate_information 0
        ({ idStr := some "q1", discrimination := some 0 } : Question) = 0 := by
      rw [calculate_information, qA]
      norm_num
    have : maxInfoSelect 0 [{ idStr := some "q1", discrimination := some 0 }] = none := by
      rw [maxInfoSelect, List.foldl_cons, maxInfoStep]
      simp [hinfo]
    simp [this]

/-- C4 amended: with the `maximum_information` strategy the selection
returns the fold over the unanswered items; it returns `none` iff every
unanswered item (possibly none at all) has Fisher information ≤ 0, and
any returned item has strictly positive information, is maximal among
the unanswered items, and is the first item in pool order attaining that
maximum (every earlier item has strictly smaller information). -/
theorem maxinfo_selection_characterization (θ : ℝ) (available : List Question)
    (answered : List String) :
    (select_next_question "maximum_information" θ available answered =
      .ok (maxInfoSelect θ (available.filter (fun q => !answeredContains answered q)))) ∧
    (maxInfoSelect θ (available.filter (fun q => !answeredContains answered q)) = none ↔
      ∀ q ∈ available.filter (fun q => !answeredContains answered q),
        calculate_information θ q ≤ 0) ∧
    (∀ qq, maxInfoSelect θ (available.filter (fun q => !answeredContains answered q)) =
        some qq →
      0 < calculate_information θ qq ∧
      (∃ pre post,
        available.filter (fun q => !answeredContains answered q) = pre ++ qq :: post ∧
        (∀ p ∈ pre, calculate_information θ p < calculate_information θ qq) ∧
        (∀ p ∈ post, calculate_information θ p ≤ calculate_information θ qq))) := by
  classical
  set u := available.filter (fun q => !answeredContains answered q) with hu
  have hchar := maxInfoFold_characterize θ u ((none : Option Question), (0 : ℝ))
  refine ⟨?_, ?_, ?_⟩
  · rw [select_next_question]
    by_cases hav : available = []
    · subst hav
      simp [maxInfoSelect, hu]
    · rw [if_neg hav, ← hu]
      by_cases hune : u = []
      · rw [if_pos hune, hune]
        simp [maxInfoSelect]
      · rw [if_neg hune, if_pos rfl]
  · constructor
    · intro hnone
      rcases hchar with ⟨_, hall⟩ | ⟨pre, q, post, _, hres, _, _, _⟩
      · exact hall
      · rw [maxInfoSelect, hres] at hnone
        exact absurd hnone (by simp)
    · intro hall
      rcases hchar with ⟨heq, _⟩ | ⟨pre, q, post, hsplit, hres, hpos, _, _⟩
      · rw [maxInfoSelect, heq]
      · exfalso
        have hq : q ∈ u := by
          rw [hsplit]
          simp
        exact absurd (lt_of_lt_of_le hpos (hall q hq)) (lt_irrefl 0)
  · intro qq hqq
    rcases hchar with ⟨heq, _⟩ | ⟨pre, q, post, hsplit, hres, hpos, hpre, hpost⟩
    · rw [maxInfoSelect, heq] at hqq
      exact absurd hqq (by simp)
    · rw [maxInfoSelect, hres] at hqq
      simp only [Option.some.injEq] at hqq
      subst hqq
      exact ⟨hpos, pre, post, hsplit, hpre, hpost⟩

/-- The standard logistic item `a = 1, b = 0, c = 0, d = 1`. -/
def logisticItem : Question :=
  { idStr := some "q1", discrimination := some 1, difficulty := some 0,
    guessing := some 0, upper_asymptote := some 1 }

/-- At `θ = 0` the standard logistic item has `P = 1/2` and Fisher
information `1 / (1/4) = 4`. -/
theorem logisticItem_information : calculate_information 0 logisticItem = 4 := by
  have hA : qA logisticItem = 1 := rfl
  have hB : qB logisticItem = 0 := rfl
  have hC : qC logisticItem = 0 := rfl
  have hD : qD logisticItem = 1 := rfl
  have hp : prob logisticItem 0 = 1/2 := by
    rw [prob, hA, hB, hC, hD]
    norm_num [Real.exp_zero]
  rw [calculate_information, hp, hA, hC, hD]
  norm_num

/-- Witness for `maxinfo_selection_characterization`: on the singleton
pool of the standard logistic item the selection returns that item,
whose information 4 is strictly positive. -/
theorem maxinfo_selection_characterization_witness :
    maxInfoSelect 0 ([logisticItem].filter
      (fun q => !answeredContains [] q)) = some logisticItem ∧
    0 < calculate_information 0 logisticItem ∧
    select_next_question "maximum_information" 0 [logisticItem] [] =
      .ok (some logisticItem) := by
  have hfilter : ([logisticItem].filter (fun q => !answeredContains [] q)) =
      [logisticItem] := by
    simp [answeredContains, logisticItem]
  have hsel : maxInfoSelect 0 ([logisticItem].filter
      (fun q => !answeredContains [] q)) = some logisticItem := by
    rw [hfilter, maxInfoSelect, List.foldl_cons, maxInfoStep]
    rw [logisticItem_information]
    norm_num
  have h := maxinfo_selection_characterization 0 [logisticItem] []
  refine ⟨hsel, (h.2.2 logisticItem hsel).1, ?_⟩
  rw [h.1, hsel]

/-! ## C1: the Newton-Raphson estimator matches its specification

The following `spec…` definitions transcribe the claim's own wording
(per-item `P_i`, `pq`, first/second derivative formulas, iteration
`θ_{k+1} = θ_k − L'/L''` from `θ₀ = 0`, stopping on a step below 0.001,
on 50 iterations, or on `|L''| < 0.001 ` returning the last `θ` without
a further update) and are proven to coincide with the embedded code. -/

/-- The claim's response probability
`P_i(θ) = c_i + (d_i - c_i)/(1 + exp(-a_i (θ - b_i)))`. -/
noncomputable def specProb (a b c d θ : ℝ) : ℝ :=
  c + (d - c) / (1 + Real.exp (-(a * (θ - b))))

/-- The claim's `L'`: sum over administered items of
`a_i (r_i - P_i)(d_i - c_i)/pq_i`. -/
noncomputable def specFirstDeriv (rs : List Response) (qs : List Question) (θ : ℝ) : ℝ :=
  ∑ i ∈ Finset.range (min rs.length qs.length),
    (let q := qs.getD i defaultItem
     let P := specProb (qA q) (qB q) (qC q) (qD q) θ
     (qA q : ℝ) * (rVal (rs.getD i (Response.mk false)) - P) *
       ((qD q : ℝ) - (qC q : ℝ)) / (P * (1 - P)))

/-- The claim's `L''`: sum over administered items of
`-a_i² (d_i - c_i)² / pq_i²`. -/
noncomputable def specSecondDeriv (rs : List Response) (qs : List Question) (θ : ℝ) : ℝ :=
  ∑ i ∈ Finset.range (min rs.length qs.length),
    (let q := qs.getD i defaultItem
     let P := specProb (qA q) (qB q) (qC q) (qD q) θ
     let num := -(qA q : ℝ) ^ 2 * ((qD q : ℝ) - (qC q : ℝ)) ^ 2
     num / (P * (1 - P)) ^ 2)

/-- The claim's iteration, counting the performed iterations up to 50. -/
noncomputable def specNewtonFrom (rs : List Response) (qs : List Question) :
    Nat → ℝ → ℝ
  | k, θ =>
    if h : 50 ≤ k then θ
    else
      let L2 := specSecondDeriv rs qs θ
      if |L2| < 1/1000 then θ
      else
        let θn := θ - specFirstDeriv rs qs θ / L2
        if |θn - θ| < 1/1000 then θ
        else specNewtonFrom rs qs (k + 1) θn
termination_by k _ => 50 - k
decreasing_by omega

/-- The claim's estimator: iterate from `θ₀ = 0`. -/
noncomputable def specNewtonEstimate (rs : List Response) (qs : List Question) : ℝ :=
  specNewtonFrom rs qs 0 0

/-- A sum of a function over a zip equals the index-wise sum over the
minimum length. -/
theorem zip_map_sum_eq {α β : Type} (f : α → β → ℝ) (l : List α) (m : List β)
    (da : α) (db : β) :
    ((l.zip m).map (fun p => f p.1 p.2)).sum =
      ∑ i ∈ Finset.range (min l.length m.length), f (l.getD i da) (m.getD i db) := by
  induction l generalizing m with
  | nil => simp
  | cons a t ih =>
    cases m with
    | nil => simp
    | cons b s =>
      rw [List.zip_cons_cons, List.map_cons, List.sum_cons, ih s,
        List.length_cons, List.length_cons, Nat.succ_min_succ,
        Finset.sum_range_succ']
      simp [add_comm]

/-- The claim's probability formula at an item's parameters is the
code's `prob`. -/
theorem specProb_eq (q : Question) (θ : ℝ) :
    specProb (qA q) (qB q) (qC q) (qD q) θ = prob q θ := rfl

/-- The spec's first derivative is the code's. -/
theorem specFirstDeriv_eq (rs : List Response) (qs : List Question) (θ : ℝ) :
    specFirstDeriv rs qs θ = firstDerivative rs qs θ := by
  rw [firstDerivative,
    zip_map_sum_eq (fun r q => firstDerivTerm r q θ) rs qs (Response.mk false) defaultItem,
    specFirstDeriv]
  rfl

/-- The spec's second derivative is the code's. -/
theorem specSecondDeriv_eq (rs : List Response) (qs : List Question) (θ : ℝ) :
    specSecondDeriv rs qs θ = secondDerivative rs qs θ := by
  rw [secondDerivative,
    zip_map_sum_eq (fun _ q => secondDerivTerm q θ) rs qs (Response.mk false) defaultItem,
    specSecondDeriv]
  refine Finset.sum_congr rfl fun i _ => ?_
  simp only [specProb_eq, secondDerivTerm]
  ring

/-- The code's loop with fuel `n` is the spec's loop at iteration
`50 - n`. -/
theorem nrLoop_eq_specNewtonFrom (rs : List Response) (qs : List Question) :
    ∀ n θ, n ≤ 50 → nrLoop rs qs n θ = specNewtonFrom rs qs (50 - n) θ := by
  intro n
  induction n with
  | zero =>
    intro θ _
    rw [nrLoop, specNewtonFrom]
    simp
  | succ n ih =>
    intro θ hn
    rw [nrLoop, specNewtonFrom, dif_neg (by omega : ¬ 50 ≤ 50 - (n + 1))]
    simp only [specFirstDeriv_eq, specSecondDeriv_eq]
    have htol : (1 : ℝ)/1000 = tolerance := rfl
    rw [htol]
    have harith : 50 - (n + 1) + 1 = 50 - n := by omega
    split_ifs with h1 h2
    · rfl
    · rfl
    · rw [harith]
      exact ih _ (by omega)

/-- C1: `estimate_ability` computes exactly the claim's Newton-Raphson
scheme: start at `θ = 0`, update by `θ − L'/L''` with the claim's
per-item derivative formulas, and stop on a step below 0.001, after 50
iterations, or on `|L''| < 0.001` (returning the last `θ` without a
further update). -/
theorem estimate_ability_newton_spec (rs : List Response) (qs : List Question) :
    estimate_ability rs qs = specNewtonEstimate rs qs := by
  rw [estimate_ability, specNewtonEstimate]
  by_cases h : rs = []
  · subst h
    rw [if_pos rfl, specNewtonFrom, dif_neg (by omega : ¬ 50 ≤ 0)]
    have h2 : specSecondDeriv [] qs 0 = 0 := by
      rw [specSecondDeriv]
      simp
    simp only [h2, abs_zero]
    rw [if_pos (by norm_num : (0:ℝ) < 1/1000)]
  · rw [if_neg h]
    have := nrLoop_eq_specNewtonFrom rs qs 50 0 le_rfl
    simpa using this

/-! ## C6 (amended part): monotonicity holds for a single administered item -/

/-- For parameters with `0 ≤ c ≤ d ≤ 1` the response probability lies in
`[0, 1]`. -/
theorem prob_nonneg_le_one (q : Question) (θ : ℝ)
    (hc0 : 0 ≤ qC q) (hcd : qC q ≤ qD q) (hd1 : qD q ≤ 1) :
    0 ≤ prob q θ ∧ prob q θ ≤ 1 := by
  have hs := logistic_mem_Ioo ((qA q : ℝ) * (θ - (qB q : ℝ)))
  have hcR : (0 : ℝ) ≤ (qC q : ℝ) := by exact_mod_cast hc0
  have hcdR : (qC q : ℝ) ≤ (qD q : ℝ) := by exact_mod_cast hcd
  have hdR : (qD q : ℝ) ≤ 1 := by exact_mod_cast hd1
  have hrw : prob q θ = (qC q : ℝ) + ((qD q : ℝ) - (qC q : ℝ)) *
      (1 / (1 + Real.exp (-((qA q : ℝ) * (θ - (qB q : ℝ)))))) := by
    rw [prob]
    ring
  rw [hrw]
  constructor
  · have := mul_nonneg (sub_nonneg.2 hcdR) hs.1.le
    linarith
  · have := mul_le_of_le_one_right (sub_nonneg.2 hcdR) hs.2.le
    linarith

/-- With a correct response, the first-derivative term is nonnegative
whenever `a ≥ 0` and `0 ≤ c ≤ d ≤ 1`. -/
theorem firstDerivTerm_nonneg (q : Question) (θ : ℝ)
    (ha : 0 ≤ qA q) (hc0 : 0 ≤ qC q) (hcd : qC q ≤ qD q) (hd1 : qD q ≤ 1) :
    0 ≤ firstDerivTerm (Response.mk true) q θ := by
  obtain ⟨hp0, hp1⟩ := prob_nonneg_le_one q θ hc0 hcd hd1
  have haR : (0 : ℝ) ≤ (qA q : ℝ) := by exact_mod_cast ha
  have hcdR : (qC q : ℝ) ≤ (qD q : ℝ) := by exact_mod_cast hcd
  rw [firstDerivTerm]
  have hr : rVal (Response.mk true) = 1 := rfl
  rw [hr]
  apply div_nonneg
  · apply mul_nonneg (mul_nonneg haR (by linarith)) (by linarith)
  · exact mul_nonneg hp0 (by linarith)

/-- With an incorrect response, the first-derivative term is nonpositive
whenever `a ≥ 0` and `0 ≤ c ≤ d ≤ 1`. -/
theorem firstDerivTerm_nonpos (q : Question) (θ : ℝ)
    (ha : 0 ≤ qA q) (hc0 : 0 ≤ qC q) (hcd : qC q ≤ qD q) (hd1 : qD q ≤ 1) :
    firstDerivTerm (Response.mk false) q θ ≤ 0 := by
  obtain ⟨hp0, hp1⟩ := prob_nonneg_le_one q θ hc0 hcd hd1
  have haR : (0 : ℝ) ≤ (qA q : ℝ) := by exact_mod_cast ha
  have hcdR : (qC q : ℝ) ≤ (qD q : ℝ) := by exact_mod_cast hcd
  rw [firstDerivTerm]
  have hr : rVal (Response.mk false) = 0 := rfl
  rw [hr]
  apply div_nonpos_of_nonpos_of_nonneg
  · apply mul_nonpos_of_nonpos_of_nonneg _ (by linarith)
    exact mul_nonpos_of_nonneg_of_nonpos haR (by linarith)
  · exact mul_nonneg hp0 (by linarith)

/-- The second-derivative term is always nonpositive. -/
theorem secondDerivTerm_nonpos (q : Question) (θ : ℝ) :
    secondDerivTerm q θ ≤ 0 := by
  rw [secondDerivTerm]
  apply div_nonpos_of_nonpos_of_nonneg
  · have h1 : (0:ℝ) ≤ (qA q : ℝ) * (qA q : ℝ) := mul_self_nonneg _
    nlinarith [sq_nonneg ((qD q : ℝ) - (qC q : ℝ))]
  · exact mul_self_nonneg _

/-- If the first derivative is everywhere nonnegative and the second
everywhere nonpositive, the Newton-Raphson loop never moves `θ` down. -/
theorem nrLoop_ge_of_signs (rs : List Response) (qs : List Question)
    (h1 : ∀ θ, 0 ≤ firstDerivative rs qs θ)
    (h2 : ∀ θ, secondDerivative rs qs θ ≤ 0) :
    ∀ n θ, θ ≤ nrLoop rs qs n θ := by
  intro n
  induction n with
  | zero => intro θ; exact le_refl _
  | succ n ih =>
    intro θ
    simp only [nrLoop]
    split_ifs with ha hb
    · exact le_rfl
    · exact le_rfl
    · have hstep : firstDerivative rs qs θ / secondDerivative rs qs θ ≤ 0 :=
        div_nonpos_of_nonneg_of_nonpos (h1 θ) (h2 θ)
      calc θ ≤ θ - firstDerivative rs qs θ / secondDerivative rs qs θ := by linarith
        _ ≤ _ := ih _

/-- If the first derivative is everywhere nonpositive and the second
everywhere nonpositive, the Newton-Raphson loop never moves `θ` up. -/
theorem nrLoop_le_of_signs (rs : List Response) (qs : List Question)
    (h1 : ∀ θ, firstDerivative rs qs θ ≤ 0)
    (h2 : ∀ θ, secondDerivative rs qs θ ≤ 0) :
    ∀ n θ, nrLoop rs qs n θ ≤ θ := by
  intro n
  induction n with
  | zero => intro θ; exact le_refl _
  | succ n ih =>
    intro θ
    simp only [nrLoop]
    split_ifs with ha hb
    · exact le_rfl
    · exact le_rfl
    · have hstep : 0 ≤ firstDerivative rs qs θ / secondDerivative rs qs θ :=
        div_nonneg_of_nonpos (h1 θ) (h2 θ)
      calc nrLoop rs qs n (θ - firstDerivative rs qs θ / secondDerivative rs qs θ)
          ≤ θ - firstDerivative rs qs θ / secondDerivative rs qs θ := ih _
        _ ≤ θ := by linarith

/-- C6 amended: with a single administered item whose parameters satisfy
`a ≥ 0`, `0 ≤ c ≤ d ≤ 1`, flipping the response from incorrect to
correct never decreases the estimate: the incorrect-response estimate is
at most 0 and the correct-response estimate is at least 0. -/
theorem estimate_monotone_single_item (q : Question)
    (ha : 0 ≤ qA q) (hc0 : 0 ≤ qC q) (hcd : qC q ≤ qD q) (hd1 : qD q ≤ 1) :
    estimate_ability [Response.mk false] [q] ≤ 0 ∧
    0 ≤ estimate_ability [Response.mk true] [q] ∧
    estimate_ability [Response.mk false] [q] ≤
      estimate_ability [Response.mk true] [q] := by
  have hfd : ∀ (r : Response) θ, firstDerivative [r] [q] θ = firstDerivTerm r q θ := by
    intro r θ
    simp [firstDerivative]
  have hsd : ∀ (r : Response) θ, secondDerivative [r] [q] θ = secondDerivTerm q θ := by
    intro r θ
    simp [secondDerivative]
  have hlo : estimate_ability [Response.mk false] [q] ≤ 0 := by
    rw [estimate_ability, if_neg (by simp)]
    apply nrLoop_le_of_signs
    · intro θ
      rw [hfd]
      exact firstDerivTerm_nonpos q θ ha hc0 hcd hd1
    · intro θ
      rw [hsd]
      exact secondDerivTerm_nonpos q θ
  have hhi : 0 ≤ estimate_ability [Response.mk true] [q] := by
    rw [estimate_ability, if_neg (by simp)]
    apply nrLoop_ge_of_signs
    · intro θ
      rw [hfd]
      exact firstDerivTerm_nonneg q θ ha hc0 hcd hd1
    · intro θ
      rw [hsd]
      exact secondDerivTerm_nonpos q θ
  exact ⟨hlo, hhi, le_trans hlo hhi⟩

/-- Witness for `estimate_monotone_single_item` at the all-defaults
item. -/
theorem estimate_monotone_single_item_witness :
    (0 ≤ qA defaultItem ∧ 0 ≤ qC defaultItem ∧ qC defaultItem ≤ qD defaultItem ∧
     qD defaultItem ≤ 1) ∧
    estimate_ability [Response.mk false] [defaultItem] ≤
      estimate_ability [Response.mk true] [defaultItem] :=
  ⟨⟨by norm_num [qA, defaultItem], by norm_num [qC, defaultItem],
    by norm_num [qC, qD, defaultItem], by norm_num [qD, defaultItem]⟩,
   (estimate_monotone_single_item defaultItem (by norm_num [qA, defaultItem])
     (by norm_num [qC, defaultItem]) (by norm_num [qC, qD, defaultItem])
     (by norm_num [qD, defaultItem])).2.2⟩

/-! ## C6 (counterexample part): interval-arithmetic infrastructure

The counterexample exhibits two administered items for which flipping
the second response from incorrect to correct makes the flipped run stop
in the flat-second-derivative pocket (`|L''| < 0.001`) one Newton step
earlier, at a strictly smaller `θ`.  The run values are pinned down by
rational interval arithmetic over series bounds for `Real.exp`. -/

/-- The item shape used in the counterexample: `c = 0`, `d = 1`. -/
def cexQ (a b : ℚ) : Question :=
  { discrimination := some a, difficulty := some b,
    guessing := some 0, upper_asymptote := some 1 }

/-- For a `cexQ` item the response probability is the pure logistic
`1 / (1 + exp (a (b - θ)))`. -/
theorem prob_cexQ (a b : ℚ) (θ : ℝ) :
    prob (cexQ a b) θ = 1 / (1 + Real.exp ((a:ℝ) * ((b:ℝ) - θ))) := by
  rw [prob]
  have h1 : qC (cexQ a b) = 0 := rfl
  have h2 : qD (cexQ a b) = 1 := rfl
  have h3 : qA (cexQ a b) = a := rfl
  have h4 : qB (cexQ a b) = b := rfl
  rw [h1, h2, h3, h4]
  have harg : -((a:ℝ) * (θ - (b:ℝ))) = (a:ℝ) * ((b:ℝ) - θ) := by ring
  rw [harg]
  push_cast
  ring

/-- Enclosing the response probability of a `cexQ` item from exponential
bounds at the rational endpoints of a `θ` interval. -/
theorem prob_bounds_cexQ (a b : ℚ) (θ : ℝ) (lo hi Elo Ehi plo phi : ℚ)
    (hθlo : (lo:ℝ) ≤ θ) (hθhi : θ ≤ (hi:ℝ)) (ha : 0 ≤ a)
    (hElo : (Elo:ℝ) ≤ Real.exp ((a:ℝ) * ((b:ℝ) - (hi:ℝ))))
    (hEhi : Real.exp ((a:ℝ) * ((b:ℝ) - (lo:ℝ))) ≤ (Ehi:ℝ))
    (hE0 : 0 < Elo) (hplo0 : 0 ≤ plo) (hphi0 : 0 ≤ phi)
    (hplo : plo * (1 + Ehi) ≤ 1)
    (hphi : 1 ≤ phi * (1 + Elo)) :
    (plo:ℝ) ≤ prob (cexQ a b) θ ∧ prob (cexQ a b) θ ≤ (phi:ℝ) := by
  rw [prob_cexQ]
  have haR : (0:ℝ) ≤ (a:ℝ) := by exact_mod_cast ha
  have hE0R : (0:ℝ) < (Elo:ℝ) := by exact_mod_cast hE0
  have hploR : (0:ℝ) ≤ (plo:ℝ) := by exact_mod_cast hplo0
  have hphiR : (0:ℝ) ≤ (phi:ℝ) := by exact_mod_cast hphi0
  have hploC : (plo:ℝ) * (1 + (Ehi:ℝ)) ≤ 1 := by exact_mod_cast hplo
  have hphiC : (1:ℝ) ≤ (phi:ℝ) * (1 + (Elo:ℝ)) := by exact_mod_cast hphi
  have hmono1 : Real.exp ((a:ℝ) * ((b:ℝ) - (hi:ℝ))) ≤
      Real.exp ((a:ℝ) * ((b:ℝ) - θ)) := by
    apply Real.exp_le_exp.2
    apply mul_le_mul_of_nonneg_left _ haR
    linarith
  have hmono2 : Real.exp ((a:ℝ) * ((b:ℝ) - θ)) ≤
      Real.exp ((a:ℝ) * ((b:ℝ) - (lo:ℝ))) := by
    apply Real.exp_le_exp.2
    apply mul_le_mul_of_nonneg_left _ haR
    linarith
  have hEl : (Elo:ℝ) ≤ Real.exp ((a:ℝ) * ((b:ℝ) - θ)) := le_trans hElo hmono1
  have hEh : Real.exp ((a:ℝ) * ((b:ℝ) - θ)) ≤ (Ehi:ℝ) := le_trans hmono2 hEhi
  have hpos : 0 < 1 + Real.exp ((a:ℝ) * ((b:ℝ) - θ)) := by
    have := Real.exp_pos ((a:ℝ) * ((b:ℝ) - θ))
    linarith
  constructor
  · rw [le_div_iff hpos]
    calc (plo:ℝ) * (1 + Real.exp ((a:ℝ) * ((b:ℝ) - θ)))
        ≤ (plo:ℝ) * (1 + (Ehi:ℝ)) := by nlinarith
      _ ≤ 1 := hploC
  · rw [div_le_iff hpos]
    calc (1:ℝ) ≤ (phi:ℝ) * (1 + (Elo:ℝ)) := hphiC
      _ ≤ (phi:ℝ) * (1 + Real.exp ((a:ℝ) * ((b:ℝ) - θ))) := by nlinarith

/-- The second-derivative term of a `cexQ` item in closed form. -/
theorem secondDerivTerm_cexQ (a b : ℚ) (θ : ℝ) :
    secondDerivTerm (cexQ a b) θ =
      -((a:ℝ) * (a:ℝ)) /
        ((prob (cexQ a b) θ * (1 - prob (cexQ a b) θ)) *
         (prob (cexQ a b) θ * (1 - prob (cexQ a b) θ))) := by
  rw [secondDerivTerm]
  have h1 : qC (cexQ a b) = 0 := rfl
  have h2 : qD (cexQ a b) = 1 := rfl
  have h3 : qA (cexQ a b) = a := rfl
  rw [h1, h2, h3]
  push_cast
  ring

/-- Enclosing the second-derivative term of a `cexQ` item from a
probability enclosure lying in `(0, 1/2]`. -/
theorem secondTerm_bounds_cexQ (a b : ℚ) (θ : ℝ) (plo phi g1 g2 : ℚ)
    (hp1 : (plo:ℝ) ≤ prob (cexQ a b) θ) (hp2 : prob (cexQ a b) θ ≤ (phi:ℝ))
    (h0 : 0 < plo) (hhalf : phi ≤ 1/2)
    (hg1 : 0 < g1) (hg1le : g1 ≤ plo * (1 - plo)) (hg2 : phi * (1 - phi) ≤ g2) :
    -((a:ℝ) * (a:ℝ)) / ((g1:ℝ) * (g1:ℝ)) ≤ secondDerivTerm (cexQ a b) θ ∧
    secondDerivTerm (cexQ a b) θ ≤ -((a:ℝ) * (a:ℝ)) / ((g2:ℝ) * (g2:ℝ)) := by
  rw [secondDerivTerm_cexQ]
  set p := prob (cexQ a b) θ with hp
  have h0R : (0:ℝ) < (plo:ℝ) := by exact_mod_cast h0
  have hhalfR : (phi:ℝ) ≤ 1/2 := by
    rw [show (1/2 : ℝ) = ((1/2 : ℚ) : ℝ) by norm_num]
    exact_mod_cast hhalf
  have hg1R : (0:ℝ) < (g1:ℝ) := by exact_mod_cast hg1
  have hg1leR : (g1:ℝ) ≤ (plo:ℝ) * (1 - (plo:ℝ)) := by exact_mod_cast hg1le
  have hg2R : (phi:ℝ) * (1 - (phi:ℝ)) ≤ (g2:ℝ) := by exact_mod_cast hg2
  have hpqlo : (g1:ℝ) ≤ p * (1 - p) := by nlinarith
  have hpqhi : p * (1 - p) ≤ (g2:ℝ) := by nlinarith
  have hpqpos : 0 < p * (1 - p) := lt_of_lt_of_le hg1R hpqlo
  have hg2pos : (0:ℝ) < (g2:ℝ) := lt_of_lt_of_le hpqpos hpqhi
  have hA : (0:ℝ) ≤ (a:ℝ) * (a:ℝ) := mul_self_nonneg _
  constructor
  · rw [neg_div, neg_div, neg_le_neg_iff]
    apply div_le_div_of_nonneg_left hA (by positivity)
    nlinarith
  · rw [neg_div, neg_div, neg_le_neg_iff]
    apply div_le_div_of_nonneg_left hA (by positivity)
    nlinarith

/-- Enclosing the first-derivative term of a `cexQ` item for a correct
response: the term is `a / p`. -/
theorem firstTerm_one_bounds_cexQ (a b : ℚ) (θ : ℝ) (plo phi : ℚ)
    (hp1 : (plo:ℝ) ≤ prob (cexQ a b) θ) (hp2 : prob (cexQ a b) θ ≤ (phi:ℝ))
    (h0 : 0 < plo) (hhalf : phi ≤ 1/2) (ha : 0 ≤ a) :
    (a:ℝ) / (phi:ℝ) ≤ firstDerivTerm (Response.mk true) (cexQ a b) θ ∧
    firstDerivTerm (Response.mk true) (cexQ a b) θ ≤ (a:ℝ) / (plo:ℝ) := by
  have h0R : (0:ℝ) < (plo:ℝ) := by exact_mod_cast h0
  have hhalfR : (phi:ℝ) ≤ 1/2 := by
    rw [show (1/2 : ℝ) = ((1/2 : ℚ) : ℝ) by norm_num]
    exact_mod_cast hhalf
  have haR : (0:ℝ) ≤ (a:ℝ) := by exact_mod_cast ha
  set p := prob (cexQ a b) θ with hp
  have hppos : 0 < p := lt_of_lt_of_le h0R hp1
  have hplt : p < 1 := by linarith [le_trans hp2 hhalfR]
  have hterm : firstDerivTerm (Response.mk true) (cexQ a b) θ = (a:ℝ) / p := by
    rw [firstDerivTerm]
    have h1 : qC (cexQ a b) = 0 := rfl
    have h2 : qD (cexQ a b) = 1 := rfl
    have h3 : qA (cexQ a b) = a := rfl
    rw [h1, h2, h3]
    have hr : rVal (Response.mk true) = 1 := rfl
    rw [hr]
    push_cast
    rw [div_eq_div_iff (by nlinarith) (by linarith)]
    ring
  rw [hterm]
  constructor
  · apply div_le_div_of_nonneg_left haR hppos hp2
  · apply div_le_div_of_nonneg_left haR h0R hp1

/-- Enclosing the first-derivative term of a `cexQ` item for an
incorrect response: the term is `-a / (1 - p)`. -/
theorem firstTerm_zero_bounds_cexQ (a b : ℚ) (θ : ℝ) (plo phi : ℚ)
    (hp1 : (plo:ℝ) ≤ prob (cexQ a b) θ) (hp2 : prob (cexQ a b) θ ≤ (phi:ℝ))
    (h0 : 0 < plo) (hhalf : phi ≤ 1/2) (ha : 0 ≤ a) :
    -((a:ℝ) / (1 - (phi:ℝ))) ≤ firstDerivTerm (Response.mk false) (cexQ a b) θ ∧
    firstDerivTerm (Response.mk false) (cexQ a b) θ ≤ -((a:ℝ) / (1 - (plo:ℝ))) := by
  have h0R : (0:ℝ) < (plo:ℝ) := by exact_mod_cast h0
  have hhalfR : (phi:ℝ) ≤ 1/2 := by
    rw [show (1/2 : ℝ) = ((1/2 : ℚ) : ℝ) by norm_num]
    exact_mod_cast hhalf
  have haR : (0:ℝ) ≤ (a:ℝ) := by exact_mod_cast ha
  set p := prob (cexQ a b) θ with hp
  have hppos : 0 < p := lt_of_lt_of_le h0R hp1
  have hphiR : p ≤ (phi:ℝ) := hp2
  have hplt : p < 1 := by linarith
  have hterm : firstDerivTerm (Response.mk false) (cexQ a b) θ =
      -((a:ℝ) / (1 - p)) := by
    rw [firstDerivTerm]
    have h1 : qC (cexQ a b) = 0 := rfl
    have h2 : qD (cexQ a b) = 1 := rfl
    have h3 : qA (cexQ a b) = a := rfl
    rw [h1, h2, h3]
    have hr : rVal (Response.mk false) = 0 := rfl
    rw [hr]
    push_cast
    rw [← neg_div]
    rw [div_eq_div_iff (by nlinarith) (by linarith)]
    ring
  rw [hterm]
  have h1mp : 0 < 1 - (phi:ℝ) := by linarith
  have h1mplo : 0 < 1 - (plo:ℝ) := by linarith
  constructor
  · rw [neg_le_neg_iff]
    exact div_le_div_of_nonneg_left haR h1mp (by linarith)
  · rw [neg_le_neg_iff]
    exact div_le_div_of_nonneg_left haR (by linarith) (by linarith)

/-- Expanding the derivative sums over a two-item administration. -/
theorem firstDerivative_pair (r1 r2 : Response) (q1 q2 : Question) (θ : ℝ) :
    firstDerivative [r1, r2] [q1, q2] θ =
      firstDerivTerm r1 q1 θ + firstDerivTerm r2 q2 θ := by
  simp [firstDerivative]

/-- Expanding the second-derivative sum over a two-item administration:
it does not depend on the responses. -/
theorem secondDerivative_pair (r1 r2 : Response) (q1 q2 : Question) (θ : ℝ) :
    secondDerivative [r1, r2] [q1, q2] θ =
      secondDerivTerm q1 θ + secondDerivTerm q2 θ := by
  simp [secondDerivative]

/-- Enclosing one Newton-Raphson step `-(L'/L'')` given enclosures of
the derivatives with `L' > 0` and `L'' < 0`. -/
theorem newton_step_bounds (L1 L2 A1 B1 A2 B2 : ℝ)
    (h1 : A1 ≤ L1) (h2 : L1 ≤ B1) (h3 : A2 ≤ L2) (h4 : L2 ≤ B2)
    (hA1 : 0 < A1) (hB2 : B2 < 0) :
    A1 / (-A2) ≤ -(L1 / L2) ∧ -(L1 / L2) ≤ B1 / (-B2) := by
  have hL2 : L2 < 0 := lt_of_le_of_lt h4 hB2
  have hnegL2 : 0 < -L2 := by linarith
  have h5 : -(L1 / L2) = L1 / (-L2) := by
    rw [div_neg]
  rw [h5]
  constructor
  · exact div_le_div (le_of_lt (lt_of_lt_of_le hA1 h1)) h1 hnegL2 (by linarith)
  · exact div_le_div (le_trans (le_of_lt hA1) (le_trans h1 h2)) h2 (by linarith)
      (by linarith)

/-- `|L''| ≥ tolerance` from an upper enclosure below `-tolerance`. -/
theorem not_flat_of_le (L2 : ℝ) (h : L2 ≤ -tolerance) : ¬(|L2| < tolerance) := by
  rw [not_lt]
  calc tolerance ≤ -L2 := by linarith
    _ ≤ |L2| := neg_le_abs L2

/-- `|L''| < tolerance` from a two-sided enclosure inside
`(-tolerance, tolerance)`. -/
theorem flat_of_bounds (L2 : ℝ) (h1 : -tolerance < L2) (h2 : L2 < tolerance) :
    |L2| < tolerance :=
  abs_lt.2 ⟨h1, h2⟩

/-- A Newton step of size at least the tolerance does not trigger the
step-size stop. -/
theorem step_not_small (θ θn : ℝ) (h : tolerance ≤ θn - θ) :
    ¬(|θn - θ| < tolerance) := by
  rw [not_lt]
  exact le_trans h (le_abs_self _)

/-- Unfolding one full (non-stopping) Newton-Raphson iteration. -/
theorem nrLoop_step (rs : List Response) (qs : List Question) (n : Nat) (θ : ℝ)
    (h1 : ¬(|secondDerivative rs qs θ| < tolerance))
    (h2 : ¬(|θ - firstDerivative rs qs θ / secondDerivative rs qs θ - θ| < tolerance)) :
    nrLoop rs qs (n + 1) θ =
      nrLoop rs qs n (θ - firstDerivative rs qs θ / secondDerivative rs qs θ) := by
  rw [nrLoop]
  simp only [if_neg h1, if_neg h2]

/-- Series lower bound for `exp 14697/10000` (via `exp (14697/20000)^2`). -/
theorem expAux1 : (4347911/1000000 : ℝ) ≤ Real.exp (14697/10000) := by
  have hy : |(14697/20000 : ℝ)| ≤ 1 := by
    rw [abs_of_nonneg] <;> norm_num
  have hb := @Real.exp_bound (14697/20000 : ℝ) hy 8 (by norm_num)
  rw [abs_of_nonneg (by norm_num : (0:ℝ) ≤ (14697/20000:ℝ))] at hb
  have hS : (1042583449/500000000 : ℝ) ≤
      ∑ m ∈ Finset.range 8, (14697/20000:ℝ) ^ m / m.factorial := by
    simp only [Finset.sum_range_succ, Finset.sum_range_zero]
    norm_num [Nat.factorial]
  have hE : (14697/20000:ℝ) ^ 8 * ((8 : ℕ).succ / ((8:ℕ).factorial * (8:ℕ))) ≤
      (2373/1000000000 : ℝ) := by
    norm_num [Nat.factorial]
  have hexp_low : (83406581/40000000 : ℝ) ≤ Real.exp (14697/20000) := by
    have h1 := (abs_le.1 hb).1
    linarith
  have hsq : Real.exp (14697/10000 : ℝ) = Real.exp (14697/20000) ^ 2 := by
    have h2 : (14697/10000 : ℝ) = ((2:ℕ) : ℝ) * (14697/20000) := by norm_num
    rw [h2, Real.exp_nat_mul]
  rw [hsq]
  calc (4347911/1000000 : ℝ) ≤ (83406581/40000000 : ℝ) ^ 2 := by norm_num
    _ ≤ Real.exp (14697/20000) ^ 2 := pow_le_pow_left₀ (by norm_num) hexp_low 2

/-- Series upper bound for `exp 14697/10000` (via `exp (14697/20000)^2`). -/
theorem expAux2 : Real.exp (14697/10000) ≤ (43479309/10000000 : ℝ) := by
  have hy : |(14697/20000 : ℝ)| ≤ 1 := by
    rw [abs_of_nonneg] <;> norm_num
  have hb := @Real.exp_bound (14697/20000 : ℝ) hy 8 (by norm_num)
  rw [abs_of_nonneg (by norm_num : (0:ℝ) ≤ (14697/20000:ℝ))] at hb
  have hS : (∑ m ∈ Finset.range 8, (14697/20000:ℝ) ^ m / m.factorial) ≤
      (2085166899/1000000000 : ℝ) := by
    simp only [Finset.sum_range_succ, Finset.sum_range_zero]
    norm_num [Nat.factorial]
  have hE : (14697/20000:ℝ) ^ 8 * ((8 : ℕ).succ / ((8:ℕ).factorial * (8:ℕ))) ≤
      (2373/1000000000 : ℝ) := by
    norm_num [Nat.factorial]
  have hexp_hi : Real.exp (14697/20000) ≤ (260646159/125000000 : ℝ) := by
    have h2 := (abs_le.1 hb).2
    linarith
  have hsq : Real.exp (14697/10000 : ℝ) = Real.exp (14697/20000) ^ 2 := by
    have h2 : (14697/10000 : ℝ) = ((2:ℕ) : ℝ) * (14697/20000) := by norm_num
    rw [h2, Real.exp_nat_mul]
  rw [hsq]
  calc Real.exp (14697/20000) ^ 2 ≤ (260646159/125000000 : ℝ) ^ 2 :=
        pow_le_pow_left₀ (Real.exp_nonneg _) hexp_hi 2
    _ ≤ (43479309/10000000 : ℝ) := by norm_num

/-- Series lower bound for `exp 7943/5000` (via `exp (7943/10000)^2`). -/
theorem expAux3 : (24484249/5000000 : ℝ) ≤ Real.exp (7943/5000) := by
  have hy : |(7943/10000 : ℝ)| ≤ 1 := by
    rw [abs_of_nonneg] <;> norm_num
  have hb := @Real.exp_bound (7943/10000 : ℝ) hy 8 (by norm_num)
  rw [abs_of_nonneg (by norm_num : (0:ℝ) ≤ (7943/10000:ℝ))] at hb
  have hS : (553221781/250000000 : ℝ) ≤
      ∑ m ∈ Finset.range 8, (7943/10000:ℝ) ^ m / m.factorial := by
    simp only [Finset.sum_range_succ, Finset.sum_range_zero]
    norm_num [Nat.factorial]
  have hE : (7943/10000:ℝ) ^ 8 * ((8 : ℕ).succ / ((8:ℕ).factorial * (8:ℕ))) ≤
      (4421/1000000000 : ℝ) := by
    norm_num [Nat.factorial]
  have hexp_low : (2212882703/1000000000 : ℝ) ≤ Real.exp (7943/10000) := by
    have h1 := (abs_le.1 hb).1
    linarith
  have hsq : Real.exp (7943/5000 : ℝ) = Real.exp (7943/10000) ^ 2 := by
    have h2 : (7943/5000 : ℝ) = ((2:ℕ) : ℝ) * (7943/10000) := by norm_num
    rw [h2, Real.exp_nat_mul]
  rw [hsq]
  calc (24484249/5000000 : ℝ) ≤ (2212882703/1000000000 : ℝ) ^ 2 := by norm_num
    _ ≤ Real.exp (7943/10000) ^ 2 := pow_le_pow_left₀ (by norm_num) hexp_low 2

/-- Series upper bound for `exp 7943/5000` (via `exp (7943/10000)^2`). -/
theorem expAux4 : Real.exp (7943/5000) ≤ (4896889/1000000 : ℝ) := by
  have hy : |(7943/10000 : ℝ)| ≤ 1 := by
    rw [abs_of_nonneg] <;> norm_num
  have hb := @Real.exp_bound (7943/10000 : ℝ) hy 8 (by norm_num)
  rw [abs_of_nonneg (by norm_num : (0:ℝ) ≤ (7943/10000:ℝ))] at hb
  have hS : (∑ m ∈ Finset.range 8, (7943/10000:ℝ) ^ m / m.factorial) ≤
      (17703097/8000000 : ℝ) := by
    simp only [Finset.sum_range_succ, Finset.sum_range_zero]
    norm_num [Nat.factorial]
  have hE : (7943/10000:ℝ) ^ 8 * ((8 : ℕ).succ / ((8:ℕ).factorial * (8:ℕ))) ≤
      (4421/1000000000 : ℝ) := by
    norm_num [Nat.factorial]
  have hexp_hi : Real.exp (7943/10000) ≤ (1106445773/500000000 : ℝ) := by
    have h2 := (abs_le.1 hb).2
    linarith
  have hsq : Real.exp (7943/5000 : ℝ) = Real.exp (7943/10000) ^ 2 := by
    have h2 : (7943/5000 : ℝ) = ((2:ℕ) : ℝ) * (7943/10000) := by norm_num
    rw [h2, Real.exp_nat_mul]
  rw [hsq]
  calc Real.exp (7943/10000) ^ 2 ≤ (1106445773/500000000 : ℝ) ^ 2 :=
        pow_le_pow_left₀ (Real.exp_nonneg _) hexp_hi 2
    _ ≤ (4896889/1000000 : ℝ) := by norm_num

/-- Series lower bound for `exp 6627511827/5000000000` (via `exp (6627511827/10000000000)^2`). -/
theorem expAux5 : (37640679/10000000 : ℝ) ≤ Real.exp (6627511827/5000000000) := by
  have hy : |(6627511827/10000000000 : ℝ)| ≤ 1 := by
    rw [abs_of_nonneg] <;> norm_num
  have hb := @Real.exp_bound (6627511827/10000000000 : ℝ) hy 8 (by norm_num)
  rw [abs_of_nonneg (by norm_num : (0:ℝ) ≤ (6627511827/10000000000:ℝ))] at hb
  have hS : (970060817/500000000 : ℝ) ≤
      ∑ m ∈ Finset.range 8, (6627511827/10000000000:ℝ) ^ m / m.factorial := by
    simp only [Finset.sum_range_succ, Finset.sum_range_zero]
    norm_num [Nat.factorial]
  have hE : (6627511827/10000000000:ℝ) ^ 8 * ((8 : ℕ).succ / ((8:ℕ).factorial * (8:ℕ))) ≤
      (1039/1000000000 : ℝ) := by
    norm_num [Nat.factorial]
  have hexp_low : (388024119/200000000 : ℝ) ≤ Real.exp (6627511827/10000000000) := by
    have h1 := (abs_le.1 hb).1
    linarith
  have hsq : Real.exp (6627511827/5000000000 : ℝ) = Real.exp (6627511827/10000000000) ^ 2 := by
    have h2 : (6627511827/5000000000 : ℝ) = ((2:ℕ) : ℝ) * (6627511827/10000000000) := by norm_num
    rw [h2, Real.exp_nat_mul]
  rw [hsq]
  calc (37640679/10000000 : ℝ) ≤ (388024119/200000000 : ℝ) ^ 2 := by norm_num
    _ ≤ Real.exp (6627511827/10000000000) ^ 2 := pow_le_pow_left₀ (by norm_num) hexp_low 2

/-- Series upper bound for `exp 6627647721/5000000000` (via `exp (6627647721/10000000000)^2`). -/
theorem expAux6 : Real.exp (6627647721/5000000000) ≤ (37641783/10000000 : ℝ) := by
  have hy : |(6627647721/10000000000 : ℝ)| ≤ 1 := by
    rw [abs_of_nonneg] <;> norm_num
  have hb := @Real.exp_bound (6627647721/10000000000 : ℝ) hy 8 (by norm_num)
  rw [abs_of_nonneg (by norm_num : (0:ℝ) ≤ (6627647721/10000000000:ℝ))] at hb
  have hS : (∑ m ∈ Finset.range 8, (6627647721/10000000000:ℝ) ^ m / m.factorial) ≤
      (485037/250000 : ℝ) := by
    simp only [Finset.sum_range_succ, Finset.sum_range_zero]
    norm_num [Nat.factorial]
  have hE : (6627647721/10000000000:ℝ) ^ 8 * ((8 : ℕ).succ / ((8:ℕ).factorial * (8:ℕ))) ≤
      (1039/1000000000 : ℝ) := by
    norm_num [Nat.factorial]
  have hexp_hi : Real.exp (6627647721/10000000000) ≤ (1940149039/1000000000 : ℝ) := by
    have h2 := (abs_le.1 hb).2
    linarith
  have hsq : Real.exp (6627647721/5000000000 : ℝ) = Real.exp (6627647721/10000000000) ^ 2 := by
    have h2 : (6627647721/5000000000 : ℝ) = ((2:ℕ) : ℝ) * (6627647721/10000000000) := by norm_num
    rw [h2, Real.exp_nat_mul]
  rw [hsq]
  calc Real.exp (6627647721/10000000000) ^ 2 ≤ (1940149039/1000000000 : ℝ) ^ 2 :=
        pow_le_pow_left₀ (Real.exp_nonneg _) hexp_hi 2
    _ ≤ (37641783/10000000 : ℝ) := by norm_num

/-- Series lower bound for `exp 750296027/500000000` (via `exp (750296027/1000000000)^2`). -/
theorem expAux7 : (22421599/5000000 : ℝ) ≤ Real.exp (750296027/500000000) := by
  have hy : |(750296027/1000000000 : ℝ)| ≤ 1 := by
    rw [abs_of_nonneg] <;> norm_num
  have hb := @Real.exp_bound (750296027/1000000000 : ℝ) hy 8 (by norm_num)
  rw [abs_of_nonneg (by norm_num : (0:ℝ) ≤ (750296027/1000000000:ℝ))] at hb
  have hS : (2117624083/1000000000 : ℝ) ≤
      ∑ m ∈ Finset.range 8, (750296027/1000000000:ℝ) ^ m / m.factorial := by
    simp only [Finset.sum_range_succ, Finset.sum_range_zero]
    norm_num [Nat.factorial]
  have hE : (750296027/1000000000:ℝ) ^ 8 * ((8 : ℕ).succ / ((8:ℕ).factorial * (8:ℕ))) ≤
      (2803/1000000000 : ℝ) := by
    norm_num [Nat.factorial]
  have hexp_low : (13235133/6250000 : ℝ) ≤ Real.exp (750296027/1000000000) := by
    have h1 := (abs_le.1 hb).1
    linarith
  have hsq : Real.exp (750296027/500000000 : ℝ) = Real.exp (750296027/1000000000) ^ 2 := by
    have h2 : (750296027/500000000 : ℝ) = ((2:ℕ) : ℝ) * (750296027/1000000000) := by norm_num
    rw [h2, Real.exp_nat_mul]
  rw [hsq]
  calc (22421599/5000000 : ℝ) ≤ (13235133/6250000 : ℝ) ^ 2 := by norm_num
    _ ≤ Real.exp (750296027/1000000000) ^ 2 := pow_le_pow_left₀ (by norm_num) hexp_low 2

/-- Series upper bound for `exp 750304321/500000000` (via `exp (750304321/1000000000)^2`). -/
theorem expAux8 : Real.exp (750304321/500000000) ≤ (44844181/10000000 : ℝ) := by
  have hy : |(750304321/1000000000 : ℝ)| ≤ 1 := by
    rw [abs_of_nonneg] <;> norm_num
  have hb := @Real.exp_bound (750304321/1000000000 : ℝ) hy 8 (by norm_num)
  rw [abs_of_nonneg (by norm_num : (0:ℝ) ≤ (750304321/1000000000:ℝ))] at hb
  have hS : (∑ m ∈ Finset.range 8, (750304321/1000000000:ℝ) ^ m / m.factorial) ≤
      (2117641647/1000000000 : ℝ) := by
    simp only [Finset.sum_range_succ, Finset.sum_range_zero]
    norm_num [Nat.factorial]
  have hE : (750304321/1000000000:ℝ) ^ 8 * ((8 : ℕ).succ / ((8:ℕ).factorial * (8:ℕ))) ≤
      (2803/1000000000 : ℝ) := by
    norm_num [Nat.factorial]
  have hexp_hi : Real.exp (750304321/1000000000) ≤ (42352889/20000000 : ℝ) := by
    have h2 := (abs_le.1 hb).2
    linarith
  have hsq : Real.exp (750304321/500000000 : ℝ) = Real.exp (750304321/1000000000) ^ 2 := by
    have h2 : (750304321/500000000 : ℝ) = ((2:ℕ) : ℝ) * (750304321/1000000000) := by norm_num
    rw [h2, Real.exp_nat_mul]
  rw [hsq]
  calc Real.exp (750304321/1000000000) ^ 2 ≤ (42352889/20000000 : ℝ) ^ 2 :=
        pow_le_pow_left₀ (Real.exp_nonneg _) hexp_hi 2
    _ ≤ (44844181/10000000 : ℝ) := by norm_num

/-- Series lower bound for `exp 6976765797/5000000000` (via `exp (6976765797/10000000000)^2`). -/
theorem expAux9 : (20181937/5000000 : ℝ) ≤ Real.exp (6976765797/5000000000) := by
  have hy : |(6976765797/10000000000 : ℝ)| ≤ 1 := by
    rw [abs_of_nonneg] <;> norm_num
  have hb := @Real.exp_bound (6976765797/10000000000 : ℝ) hy 8 (by norm_num)
  rw [abs_of_nonneg (by norm_num : (0:ℝ) ≤ (6976765797/10000000000:ℝ))] at hb
  have hS : (502269459/250000000 : ℝ) ≤
      ∑ m ∈ Finset.range 8, (6976765797/10000000000:ℝ) ^ m / m.factorial := by
    simp only [Finset.sum_range_succ, Finset.sum_range_zero]
    norm_num [Nat.factorial]
  have hE : (6976765797/10000000000:ℝ) ^ 8 * ((8 : ℕ).succ / ((8:ℕ).factorial * (8:ℕ))) ≤
      (1567/1000000000 : ℝ) := by
    norm_num [Nat.factorial]
  have hexp_low : (2009076269/1000000000 : ℝ) ≤ Real.exp (6976765797/10000000000) := by
    have h1 := (abs_le.1 hb).1
    linarith
  have hsq : Real.exp (6976765797/5000000000 : ℝ) = Real.exp (6976765797/10000000000) ^ 2 := by
    have h2 : (6976765797/5000000000 : ℝ) = ((2:ℕ) : ℝ) * (6976765797/10000000000) := by norm_num
    rw [h2, Real.exp_nat_mul]
  rw [hsq]
  calc (20181937/5000000 : ℝ) ≤ (2009076269/1000000000 : ℝ) ^ 2 := by norm_num
    _ ≤ Real.exp (6976765797/10000000000) ^ 2 := pow_le_pow_left₀ (by norm_num) hexp_low 2

/-- Series upper bound for `exp 6976835661/5000000000` (via `exp (6976835661/10000000000)^2`). -/
theorem expAux10 : Real.exp (6976835661/5000000000) ≤ (8072913/2000000 : ℝ) := by
  have hy : |(6976835661/10000000000 : ℝ)| ≤ 1 := by
    rw [abs_of_nonneg] <;> norm_num
  have hb := @Real.exp_bound (6976835661/10000000000 : ℝ) hy 8 (by norm_num)
  rw [abs_of_nonneg (by norm_num : (0:ℝ) ≤ (6976835661/10000000000:ℝ))] at hb
  have hS : (∑ m ∈ Finset.range 8, (6976835661/10000000000:ℝ) ^ m / m.factorial) ≤
      (2009091873/1000000000 : ℝ) := by
    simp only [Finset.sum_range_succ, Finset.sum_range_zero]
    norm_num [Nat.factorial]
  have hE : (6976835661/10000000000:ℝ) ^ 8 * ((8 : ℕ).succ / ((8:ℕ).factorial * (8:ℕ))) ≤
      (1567/1000000000 : ℝ) := by
    norm_num [Nat.factorial]
  have hexp_hi : Real.exp (6976835661/10000000000) ≤ (6278417/3125000 : ℝ) := by
    have h2 := (abs_le.1 hb).2
    linarith
  have hsq : Real.exp (6976835661/5000000000 : ℝ) = Real.exp (6976835661/10000000000) ^ 2 := by
    have h2 : (6976835661/5000000000 : ℝ) = ((2:ℕ) : ℝ) * (6976835661/10000000000) := by norm_num
    rw [h2, Real.exp_nat_mul]
  rw [hsq]
  calc Real.exp (6976835661/10000000000) ^ 2 ≤ (6278417/3125000 : ℝ) ^ 2 :=
        pow_le_pow_left₀ (Real.exp_nonneg _) hexp_hi 2
    _ ≤ (8072913/2000000 : ℝ) := by norm_num

/-- Series lower bound for `exp 771611997/500000000` (via `exp (771611997/1000000000)^2`). -/
theorem expAux11 : (5849529/1250000 : ℝ) ≤ Real.exp (771611997/500000000) := by
  have hy : |(771611997/1000000000 : ℝ)| ≤ 1 := by
    rw [abs_of_nonneg] <;> norm_num
  have hb := @Real.exp_bound (771611997/1000000000 : ℝ) hy 8 (by norm_num)
  rw [abs_of_nonneg (by norm_num : (0:ℝ) ≤ (771611997/1000000000:ℝ))] at hb
  have hS : (270405899/125000000 : ℝ) ≤
      ∑ m ∈ Finset.range 8, (771611997/1000000000:ℝ) ^ m / m.factorial := by
    simp only [Finset.sum_range_succ, Finset.sum_range_zero]
    norm_num [Nat.factorial]
  have hE : (771611997/1000000000:ℝ) ^ 8 * ((8 : ℕ).succ / ((8:ℕ).factorial * (8:ℕ))) ≤
      (3507/1000000000 : ℝ) := by
    norm_num [Nat.factorial]
  have hexp_low : (432648737/200000000 : ℝ) ≤ Real.exp (771611997/1000000000) := by
    have h1 := (abs_le.1 hb).1
    linarith
  have hsq : Real.exp (771611997/500000000 : ℝ) = Real.exp (771611997/1000000000) ^ 2 := by
    have h2 : (771611997/500000000 : ℝ) = ((2:ℕ) : ℝ) * (771611997/1000000000) := by norm_num
    rw [h2, Real.exp_nat_mul]
  rw [hsq]
  calc (5849529/1250000 : ℝ) ≤ (432648737/200000000 : ℝ) ^ 2 := by norm_num
    _ ≤ Real.exp (771611997/1000000000) ^ 2 := pow_le_pow_left₀ (by norm_num) hexp_low 2

/-- Series upper bound for `exp 771616261/500000000` (via `exp (771616261/1000000000)^2`). -/
theorem expAux12 : Real.exp (771616261/500000000) ≤ (9359387/2000000 : ℝ) := by
  have hy : |(771616261/1000000000 : ℝ)| ≤ 1 := by
    rw [abs_of_nonneg] <;> norm_num
  have hb := @Real.exp_bound (771616261/1000000000 : ℝ) hy 8 (by norm_num)
  rw [abs_of_nonneg (by norm_num : (0:ℝ) ≤ (771616261/1000000000:ℝ))] at hb
  have hS : (∑ m ∈ Finset.range 8, (771616261/1000000000:ℝ) ^ m / m.factorial) ≤
      (2163256417/1000000000 : ℝ) := by
    simp only [Finset.sum_range_succ, Finset.sum_range_zero]
    norm_num [Nat.factorial]
  have hE : (771616261/1000000000:ℝ) ^ 8 * ((8 : ℕ).succ / ((8:ℕ).factorial * (8:ℕ))) ≤
      (3507/1000000000 : ℝ) := by
    norm_num [Nat.factorial]
  have hexp_hi : Real.exp (771616261/1000000000) ≤ (540814981/250000000 : ℝ) := by
    have h2 := (abs_le.1 hb).2
    linarith
  have hsq : Real.exp (771616261/500000000 : ℝ) = Real.exp (771616261/1000000000) ^ 2 := by
    have h2 : (771616261/500000000 : ℝ) = ((2:ℕ) : ℝ) * (771616261/1000000000) := by norm_num
    rw [h2, Real.exp_nat_mul]
  rw [hsq]
  calc Real.exp (771616261/1000000000) ^ 2 ≤ (540814981/250000000 : ℝ) ^ 2 :=
        pow_le_pow_left₀ (Real.exp_nonneg _) hexp_hi 2
    _ ≤ (9359387/2000000 : ℝ) := by norm_num

/-- Series lower bound for `exp 3300588573/2500000000` (via `exp (3300588573/5000000000)^2`). -/
theorem expAux13 : (37442951/10000000 : ℝ) ≤ Real.exp (3300588573/2500000000) := by
  have hy : |(3300588573/5000000000 : ℝ)| ≤ 1 := by
    rw [abs_of_nonneg] <;> norm_num
  have hb := @Real.exp_bound (3300588573/5000000000 : ℝ) hy 8 (by norm_num)
  rw [abs_of_nonneg (by norm_num : (0:ℝ) ≤ (3300588573/5000000000:ℝ))] at hb
  have hS : (15117337/7812500 : ℝ) ≤
      ∑ m ∈ Finset.range 8, (3300588573/5000000000:ℝ) ^ m / m.factorial := by
    simp only [Finset.sum_range_succ, Finset.sum_range_zero]
    norm_num [Nat.factorial]
  have hE : (3300588573/5000000000:ℝ) ^ 8 * ((8 : ℕ).succ / ((8:ℕ).factorial * (8:ℕ))) ≤
      (1007/1000000000 : ℝ) := by
    norm_num [Nat.factorial]
  have hexp_low : (1935018129/1000000000 : ℝ) ≤ Real.exp (3300588573/5000000000) := by
    have h1 := (abs_le.1 hb).1
    linarith
  have hsq : Real.exp (3300588573/2500000000 : ℝ) = Real.exp (3300588573/5000000000) ^ 2 := by
    have h2 : (3300588573/2500000000 : ℝ) = ((2:ℕ) : ℝ) * (3300588573/5000000000) := by norm_num
    rw [h2, Real.exp_nat_mul]
  rw [hsq]
  calc (37442951/10000000 : ℝ) ≤ (1935018129/1000000000 : ℝ) ^ 2 := by norm_num
    _ ≤ Real.exp (3300588573/5000000000) ^ 2 := pow_le_pow_left₀ (by norm_num) hexp_low 2

/-- Series upper bound for `exp 330064587/250000000` (via `exp (330064587/500000000)^2`). -/
theorem expAux14 : Real.exp (330064587/250000000) ≤ (2340243/625000 : ℝ) := by
  have hy : |(330064587/500000000 : ℝ)| ≤ 1 := by
    rw [abs_of_nonneg] <;> norm_num
  have hb := @Real.exp_bound (330064587/500000000 : ℝ) hy 8 (by norm_num)
  rw [abs_of_nonneg (by norm_num : (0:ℝ) ≤ (330064587/500000000:ℝ))] at hb
  have hS : (∑ m ∈ Finset.range 8, (330064587/500000000:ℝ) ^ m / m.factorial) ≤
      (1935041311/1000000000 : ℝ) := by
    simp only [Finset.sum_range_succ, Finset.sum_range_zero]
    norm_num [Nat.factorial]
  have hE : (330064587/500000000:ℝ) ^ 8 * ((8 : ℕ).succ / ((8:ℕ).factorial * (8:ℕ))) ≤
      (1007/1000000000 : ℝ) := by
    norm_num [Nat.factorial]
  have hexp_hi : Real.exp (330064587/500000000) ≤ (967521159/500000000 : ℝ) := by
    have h2 := (abs_le.1 hb).2
    linarith
  have hsq : Real.exp (330064587/250000000 : ℝ) = Real.exp (330064587/500000000) ^ 2 := by
    have h2 : (330064587/250000000 : ℝ) = ((2:ℕ) : ℝ) * (330064587/500000000) := by norm_num
    rw [h2, Real.exp_nat_mul]
  rw [hsq]
  calc Real.exp (330064587/500000000) ^ 2 ≤ (967521159/500000000 : ℝ) ^ 2 :=
        pow_le_pow_left₀ (Real.exp_nonneg _) hexp_hi 2
    _ ≤ (2340243/625000 : ℝ) := by norm_num

/-- Series lower bound for `exp 374344373/250000000` (via `exp (374344373/500000000)^2`). -/
theorem expAux15 : (22349641/5000000 : ℝ) ≤ Real.exp (374344373/250000000) := by
  have hy : |(374344373/500000000 : ℝ)| ≤ 1 := by
    rw [abs_of_nonneg] <;> norm_num
  have hb := @Real.exp_bound (374344373/500000000 : ℝ) hy 8 (by norm_num)
  rw [abs_of_nonneg (by norm_num : (0:ℝ) ≤ (374344373/500000000:ℝ))] at hb
  have hS : (1057111621/500000000 : ℝ) ≤
      ∑ m ∈ Finset.range 8, (374344373/500000000:ℝ) ^ m / m.factorial := by
    simp only [Finset.sum_range_succ, Finset.sum_range_zero]
    norm_num [Nat.factorial]
  have hE : (374344373/500000000:ℝ) ^ 8 * ((8 : ℕ).succ / ((8:ℕ).factorial * (8:ℕ))) ≤
      (551/200000000 : ℝ) := by
    norm_num [Nat.factorial]
  have hexp_low : (2114220487/1000000000 : ℝ) ≤ Real.exp (374344373/500000000) := by
    have h1 := (abs_le.1 hb).1
    linarith
  have hsq : Real.exp (374344373/250000000 : ℝ) = Real.exp (374344373/500000000) ^ 2 := by
    have h2 : (374344373/250000000 : ℝ) = ((2:ℕ) : ℝ) * (374344373/500000000) := by norm_num
    rw [h2, Real.exp_nat_mul]
  rw [hsq]
  calc (22349641/5000000 : ℝ) ≤ (2114220487/1000000000 : ℝ) ^ 2 := by norm_num
    _ ≤ Real.exp (374344373/500000000) ^ 2 := pow_le_pow_left₀ (by norm_num) hexp_low 2

/-- Series upper bound for `exp 37434787/25000000` (via `exp (37434787/50000000)^2`). -/
theorem expAux16 : Real.exp (37434787/25000000) ≤ (44700141/10000000 : ℝ) := by
  have hy : |(37434787/50000000 : ℝ)| ≤ 1 := by
    rw [abs_of_nonneg] <;> norm_num
  have hb := @Real.exp_bound (37434787/50000000 : ℝ) hy 8 (by norm_num)
  rw [abs_of_nonneg (by norm_num : (0:ℝ) ≤ (37434787/50000000:ℝ))] at hb
  have hS : (∑ m ∈ Finset.range 8, (37434787/50000000:ℝ) ^ m / m.factorial) ≤
      (211423803/100000000 : ℝ) := by
    simp only [Finset.sum_range_succ, Finset.sum_range_zero]
    norm_num [Nat.factorial]
  have hE : (37434787/50000000:ℝ) ^ 8 * ((8 : ℕ).succ / ((8:ℕ).factorial * (8:ℕ))) ≤
      (551/200000000 : ℝ) := by
    norm_num [Nat.factorial]
  have hexp_hi : Real.exp (37434787/50000000) ≤ (422848157/200000000 : ℝ) := by
    have h2 := (abs_le.1 hb).2
    linarith
  have hsq : Real.exp (37434787/25000000 : ℝ) = Real.exp (37434787/50000000) ^ 2 := by
    have h2 : (37434787/25000000 : ℝ) = ((2:ℕ) : ℝ) * (37434787/50000000) := by norm_num
    rw [h2, Real.exp_nat_mul]
  rw [hsq]
  calc Real.exp (37434787/50000000) ^ 2 ≤ (422848157/200000000 : ℝ) ^ 2 :=
        pow_le_pow_left₀ (Real.exp_nonneg _) hexp_hi 2
    _ ≤ (44700141/10000000 : ℝ) := by norm_num

set_option maxHeartbeats 4000000 in
/-- Counterexample to C6 as stated: for the two administered items
`cexQ (213/50000) 345` and `cexQ (13/5000) 611` (both with
`a > 0`, `c = 0`, `d = 1`), flipping the second response from incorrect
to correct makes the Newton-Raphson run stop in the flat-second-
derivative pocket (`|L''| < 0.001`) one step earlier, at a strictly
smaller ability: the flipped run returns `θ ≈ 33.85` while the original
run returns `θ ≈ 35.08`. -/
theorem estimate_flip_can_decrease :
    estimate_ability [Response.mk true, Response.mk true] [cexQ (213/50000) 345, cexQ (13/5000) 611] <
      estimate_ability [Response.mk true, Response.mk false] [cexQ (213/50000) 345, cexQ (13/5000) 611] := by
  have h00lo : ((0 : ℚ) : ℝ) ≤ (0 : ℝ) := by norm_num
  have h00hi : (0 : ℝ) ≤ ((0 : ℚ) : ℝ) := by norm_num
  have hexlo_a1 : ((4347911/1000000 : ℚ) : ℝ) ≤ Real.exp (((213/50000 : ℚ) : ℝ) * (((345 : ℚ) : ℝ) - ((0 : ℚ) : ℝ))) := by
    have harg : ((213/50000 : ℚ) : ℝ) * (((345 : ℚ) : ℝ) - ((0 : ℚ) : ℝ)) = (14697/10000 : ℝ) := by
      push_cast
      norm_num
    rw [harg]
    have h := expAux1
    push_cast
    linarith
  have hexhi_a1 : Real.exp (((213/50000 : ℚ) : ℝ) * (((345 : ℚ) : ℝ) - ((0 : ℚ) : ℝ))) ≤ ((43479309/10000000 : ℚ) : ℝ) := by
    have harg : ((213/50000 : ℚ) : ℝ) * (((345 : ℚ) : ℝ) - ((0 : ℚ) : ℝ)) = (14697/10000 : ℝ) := by
      push_cast
      norm_num
    rw [harg]
    have h := expAux2
    push_cast
    linarith
  have hp_a1 := prob_bounds_cexQ (213/50000) (345) ((0 : ℝ)) (0) (0) (4347911/1000000) (43479309/10000000) (934941/5000000) (186989/1000000)
    h00lo h00hi (by norm_num) hexlo_a1 hexhi_a1
    (by norm_num) (by norm_num) (by norm_num) (by norm_num) (by norm_num)
  have hs_a1 := secondTerm_bounds_cexQ (213/50000) (345) ((0 : ℝ)) (934941/5000000) (186989/1000000) (380059/2500000) (760121/5000000)
    hp_a1.1 hp_a1.2 (by norm_num) (by norm_num) (by norm_num) (by norm_num) (by norm_num)
  have hexlo_a2 : ((24484249/5000000 : ℚ) : ℝ) ≤ Real.exp (((13/5000 : ℚ) : ℝ) * (((611 : ℚ) : ℝ) - ((0 : ℚ) : ℝ))) := by
    have harg : ((13/5000 : ℚ) : ℝ) * (((611 : ℚ) : ℝ) - ((0 : ℚ) : ℝ)) = (7943/5000 : ℝ) := by
      push_cast
      norm_num
    rw [harg]
    have h := expAux3
    push_cast
    linarith
  have hexhi_a2 : Real.exp (((13/5000 : ℚ) : ℝ) * (((611 : ℚ) : ℝ) - ((0 : ℚ) : ℝ))) ≤ ((4896889/1000000 : ℚ) : ℝ) := by
    have harg : ((13/5000 : ℚ) : ℝ) * (((611 : ℚ) : ℝ) - ((0 : ℚ) : ℝ)) = (7943/5000 : ℝ) := by
      push_cast
      norm_num
    rw [harg]
    have h := expAux4
    push_cast
    linarith
  have hp_a2 := prob_bounds_cexQ (13/5000) (611) ((0 : ℝ)) (0) (0) (24484249/5000000) (4896889/1000000) (1695809/10000000) (1695821/10000000)
    h00lo h00hi (by norm_num) hexlo_a2 hexhi_a2
    (by norm_num) (by norm_num) (by norm_num) (by norm_num) (by norm_num)
  have hs_a2 := secondTerm_bounds_cexQ (13/5000) (611) ((0 : ℝ)) (1695809/10000000) (1695821/10000000) (176029/1250000) (1408241/10000000)
    hp_a2.1 hp_a2.2 (by norm_num) (by norm_num) (by norm_num) (by norm_num) (by norm_num)
  have htt_a_lo : ((0 : ℚ) : ℝ) ≤ (0 : ℝ) := h00lo
  have htt_a_hi : (0 : ℝ) ≤ ((0 : ℚ) : ℝ) := h00hi
  have hf_a1 := firstTerm_one_bounds_cexQ (213/50000) (345) ((0 : ℝ)) (934941/5000000) (186989/1000000)
    hp_a1.1 hp_a1.2 (by norm_num) (by norm_num) (by norm_num)
  have hf_a2 := firstTerm_one_bounds_cexQ (13/5000) (611) ((0 : ℝ)) (1695809/10000000) (1695821/10000000)
    hp_a2.1 hp_a2.2 (by norm_num) (by norm_num) (by norm_num)
  have hL2lo_a : ((-5631/5000000 : ℚ) : ℝ) ≤ secondDerivative [Response.mk true, Response.mk true] [cexQ (213/50000) 345, cexQ (13/5000) 611] ((0 : ℝ)) := by
    rw [secondDerivative_pair]
    have h1 := hs_a1.1
    have h2 := hs_a2.1
    have hc : ((-5631/5000000 : ℚ) : ℝ) ≤ -(((213/50000 : ℚ) : ℝ) * ((213/50000 : ℚ) : ℝ)) / (((380059/2500000 : ℚ) : ℝ) * ((380059/2500000 : ℚ) : ℝ)) + -(((13/5000 : ℚ) : ℝ) * ((13/5000 : ℚ) : ℝ)) / (((176029/1250000 : ℚ) : ℝ) * ((176029/1250000 : ℚ) : ℝ)) := by
      push_cast
      norm_num
    linarith
  have hL2hi_a : secondDerivative [Response.mk true, Response.mk true] [cexQ (213/50000) 345, cexQ (13/5000) 611] ((0 : ℝ)) ≤ ((-563/500000 : ℚ) : ℝ) := by
    rw [secondDerivative_pair]
    have h1 := hs_a1.2
    have h2 := hs_a2.2
    have hc : -(((213/50000 : ℚ) : ℝ) * ((213/50000 : ℚ) : ℝ)) / (((760121/5000000 : ℚ) : ℝ) * ((760121/5000000 : ℚ) : ℝ)) + -(((13/5000 : ℚ) : ℝ) * ((13/5000 : ℚ) : ℝ)) / (((1408241/10000000 : ℚ) : ℝ) * ((1408241/10000000 : ℚ) : ℝ)) ≤ ((-563/500000 : ℚ) : ℝ) := by
      push_cast
      norm_num
    linarith
  have hL1lo_a : ((190569/5000000 : ℚ) : ℝ) ≤ firstDerivative [Response.mk true, Response.mk true] [cexQ (213/50000) 345, cexQ (13/5000) 611] ((0 : ℝ)) := by
    rw [firstDerivative_pair]
    have h1 := hf_a1.1
    have h2 := hf_a2.1
    have hc : ((190569/5000000 : ℚ) : ℝ) ≤ ((213/50000 : ℚ) : ℝ) / ((186989/1000000 : ℚ) : ℝ) + ((13/5000 : ℚ) : ℝ) / ((1695821/10000000 : ℚ) : ℝ) := by
      push_cast
      norm_num
    linarith
  have hL1hi_a : firstDerivative [Response.mk true, Response.mk true] [cexQ (213/50000) 345, cexQ (13/5000) 611] ((0 : ℝ)) ≤ ((190571/5000000 : ℚ) : ℝ) := by
    rw [firstDerivative_pair]
    have h1 := hf_a1.2
    have h2 := hf_a2.2
    have hc : ((213/50000 : ℚ) : ℝ) / ((934941/5000000 : ℚ) : ℝ) + ((13/5000 : ℚ) : ℝ) / ((1695809/10000000 : ℚ) : ℝ) ≤ ((190571/5000000 : ℚ) : ℝ) := by
      push_cast
      norm_num
    linarith
  have hnf_a : ¬(|secondDerivative [Response.mk true, Response.mk true] [cexQ (213/50000) 345, cexQ (13/5000) 611] ((0 : ℝ))| < tolerance) := by
    apply not_flat_of_le
    have h := hL2hi_a
    have hc : ((-563/500000 : ℚ) : ℝ) ≤ -tolerance := by
      simp only [tolerance]
      push_cast
      norm_num
    linarith
  have hstep_a := newton_step_bounds (firstDerivative [Response.mk true, Response.mk true] [cexQ (213/50000) 345, cexQ (13/5000) 611] ((0 : ℝ))) (secondDerivative [Response.mk true, Response.mk true] [cexQ (213/50000) 345, cexQ (13/5000) 611] ((0 : ℝ))) ((190569/5000000 : ℚ) : ℝ) ((190571/5000000 : ℚ) : ℝ) ((-5631/5000000 : ℚ) : ℝ) ((-563/500000 : ℚ) : ℝ)
    hL1lo_a hL1hi_a hL2lo_a hL2hi_a
    (by push_cast; norm_num) (by push_cast; norm_num)
  have hns_a : ¬(|(0 : ℝ) - firstDerivative [Response.mk true, Response.mk true] [cexQ (213/50000) 345, cexQ (13/5000) 611] ((0 : ℝ)) / secondDerivative [Response.mk true, Response.mk true] [cexQ (213/50000) 345, cexQ (13/5000) 611] ((0 : ℝ)) - ((0 : ℝ))| < tolerance) := by
    apply step_not_small
    have heq : (0 : ℝ) - firstDerivative [Response.mk true, Response.mk true] [cexQ (213/50000) 345, cexQ (13/5000) 611] ((0 : ℝ)) / secondDerivative [Response.mk true, Response.mk true] [cexQ (213/50000) 345, cexQ (13/5000) 611] ((0 : ℝ)) - ((0 : ℝ)) = -(firstDerivative [Response.mk true, Response.mk true] [cexQ (213/50000) 345, cexQ (13/5000) 611] ((0 : ℝ)) / secondDerivative [Response.mk true, Response.mk true] [cexQ (213/50000) 345, cexQ (13/5000) 611] ((0 : ℝ))) := by
      ring
    rw [heq]
    have h := hstep_a.1
    have hc : tolerance ≤ ((190569/5000000 : ℚ) : ℝ) / (-((-5631/5000000 : ℚ) : ℝ)) := by
      simp only [tolerance]
      push_cast
      norm_num
    linarith
  have htlo_a : ((3384283/100000 : ℚ) : ℝ) ≤ (0 : ℝ) - firstDerivative [Response.mk true, Response.mk true] [cexQ (213/50000) 345, cexQ (13/5000) 611] ((0 : ℝ)) / secondDerivative [Response.mk true, Response.mk true] [cexQ (213/50000) 345, cexQ (13/5000) 611] ((0 : ℝ)) := by
    have h := hstep_a.1
    have heq : (0 : ℝ) - firstDerivative [Response.mk true, Response.mk true] [cexQ (213/50000) 345, cexQ (13/5000) 611] ((0 : ℝ)) / secondDerivative [Response.mk true, Response.mk true] [cexQ (213/50000) 345, cexQ (13/5000) 611] ((0 : ℝ)) = ((0 : ℝ)) + -(firstDerivative [Response.mk true, Response.mk true] [cexQ (213/50000) 345, cexQ (13/5000) 611] ((0 : ℝ)) / secondDerivative [Response.mk true, Response.mk true] [cexQ (213/50000) 345, cexQ (13/5000) 611] ((0 : ℝ))) := by
      ring
    rw [heq]
    have hc : ((3384283/100000 : ℚ) : ℝ) ≤ ((0 : ℚ) : ℝ) + ((190569/5000000 : ℚ) : ℝ) / (-((-5631/5000000 : ℚ) : ℝ)) := by
      push_cast
      norm_num
    linarith [htt_a_lo]
  have hthi_a : (0 : ℝ) - firstDerivative [Response.mk true, Response.mk true] [cexQ (213/50000) 345, cexQ (13/5000) 611] ((0 : ℝ)) / secondDerivative [Response.mk true, Response.mk true] [cexQ (213/50000) 345, cexQ (13/5000) 611] ((0 : ℝ)) ≤ ((3384921/100000 : ℚ) : ℝ) := by
    have h := hstep_a.2
    have heq : (0 : ℝ) - firstDerivative [Response.mk true, Response.mk true] [cexQ (213/50000) 345, cexQ (13/5000) 611] ((0 : ℝ)) / secondDerivative [Response.mk true, Response.mk true] [cexQ (213/50000) 345, cexQ (13/5000) 611] ((0 : ℝ)) = ((0 : ℝ)) + -(firstDerivative [Response.mk true, Response.mk true] [cexQ (213/50000) 345, cexQ (13/5000) 611] ((0 : ℝ)) / secondDerivative [Response.mk true, Response.mk true] [cexQ (213/50000) 345, cexQ (13/5000) 611] ((0 : ℝ))) := by
      ring
    rw [heq]
    have hc : ((0 : ℚ) : ℝ) + ((190571/5000000 : ℚ) : ℝ) / (-((-563/500000 : ℚ) : ℝ)) ≤ ((3384921/100000 : ℚ) : ℝ) := by
      push_cast
      norm_num
    linarith [htt_a_hi]
  have htt_b_lo : ((3384283/100000 : ℚ) : ℝ) ≤ (0 : ℝ) - firstDerivative [Response.mk true, Response.mk true] [cexQ (213/50000) 345, cexQ (13/5000) 611] ((0 : ℝ)) / secondDerivative [Response.mk true, Response.mk true] [cexQ (213/50000) 345, cexQ (13/5000) 611] ((0 : ℝ)) := htlo_a
  have htt_b_hi : (0 : ℝ) - firstDerivative [Response.mk true, Response.mk true] [cexQ (213/50000) 345, cexQ (13/5000) 611] ((0 : ℝ)) / secondDerivative [Response.mk true, Response.mk true] [cexQ (213/50000) 345, cexQ (13/5000) 611] ((0 : ℝ)) ≤ ((3384921/100000 : ℚ) : ℝ) := hthi_a
  have hexlo_b1 : ((37640679/10000000 : ℚ) : ℝ) ≤ Real.exp (((213/50000 : ℚ) : ℝ) * (((345 : ℚ) : ℝ) - ((3384921/100000 : ℚ) : ℝ))) := by
    have harg : ((213/50000 : ℚ) : ℝ) * (((345 : ℚ) : ℝ) - ((3384921/100000 : ℚ) : ℝ)) = (6627511827/5000000000 : ℝ) := by
      push_cast
      norm_num
    rw [harg]
    have h := expAux5
    push_cast
    linarith
  have hexhi_b1 : Real.exp (((213/50000 : ℚ) : ℝ) * (((345 : ℚ) : ℝ) - ((3384283/100000 : ℚ) : ℝ))) ≤ ((37641783/10000000 : ℚ) : ℝ) := by
    have harg : ((213/50000 : ℚ) : ℝ) * (((345 : ℚ) : ℝ) - ((3384283/100000 : ℚ) : ℝ)) = (6627647721/5000000000 : ℝ) := by
      push_cast
      norm_num
    rw [harg]
    have h := expAux6
    push_cast
    linarith
  have hp_b1 := prob_bounds_cexQ (213/50000) (345) ((0 : ℝ) - firstDerivative [Response.mk true, Response.mk true] [cexQ (213/50000) 345, cexQ (13/5000) 611] ((0 : ℝ)) / secondDerivative [Response.mk true, Response.mk true] [cexQ (213/50000) 345, cexQ (13/5000) 611] ((0 : ℝ))) (3384283/100000) (3384921/100000) (37640679/10000000) (37641783/10000000) (2098997/10000000) (2099047/10000000)
    htt_b_lo htt_b_hi (by norm_num) hexlo_b1 hexhi_b1
    (by norm_num) (by norm_num) (by norm_num) (by norm_num) (by norm_num)
  have hs_b1 := secondTerm_bounds_cexQ (213/50000) (345) ((0 : ℝ) - firstDerivative [Response.mk true, Response.mk true] [cexQ (213/50000) 345, cexQ (13/5000) 611] ((0 : ℝ)) / secondDerivative [Response.mk true, Response.mk true] [cexQ (213/50000) 345, cexQ (13/5000) 611] ((0 : ℝ))) (2098997/10000000) (2099047/10000000) (829209/5000000) (103653/625000)
    hp_b1.1 hp_b1.2 (by norm_num) (by norm_num) (by norm_num) (by norm_num) (by norm_num)
  have hexlo_b2 : ((22421599/5000000 : ℚ) : ℝ) ≤ Real.exp (((13/5000 : ℚ) : ℝ) * (((611 : ℚ) : ℝ) - ((3384921/100000 : ℚ) : ℝ))) := by
    have harg : ((13/5000 : ℚ) : ℝ) * (((611 : ℚ) : ℝ) - ((3384921/100000 : ℚ) : ℝ)) = (750296027/500000000 : ℝ) := by
      push_cast
      norm_num
    rw [harg]
    have h := expAux7
    push_cast
    linarith
  have hexhi_b2 : Real.exp (((13/5000 : ℚ) : ℝ) * (((611 : ℚ) : ℝ) - ((3384283/100000 : ℚ) : ℝ))) ≤ ((44844181/10000000 : ℚ) : ℝ) := by
    have harg : ((13/5000 : ℚ) : ℝ) * (((611 : ℚ) : ℝ) - ((3384283/100000 : ℚ) : ℝ)) = (750304321/500000000 : ℝ) := by
      push_cast
      norm_num
    rw [harg]
    have h := expAux8
    push_cast
    linarith
  have hp_b2 := prob_bounds_cexQ (13/5000) (611) ((0 : ℝ) - firstDerivative [Response.mk true, Response.mk true] [cexQ (213/50000) 345, cexQ (13/5000) 611] ((0 : ℝ)) / secondDerivative [Response.mk true, Response.mk true] [cexQ (213/50000) 345, cexQ (13/5000) 611] ((0 : ℝ))) (3384283/100000) (3384921/100000) (22421599/5000000) (44844181/10000000) (1823347/10000000) (1823381/10000000)
    htt_b_lo htt_b_hi (by norm_num) hexlo_b2 hexhi_b2
    (by norm_num) (by norm_num) (by norm_num) (by norm_num) (by norm_num)
  have hs_b2 := secondTerm_bounds_cexQ (13/5000) (611) ((0 : ℝ) - firstDerivative [Response.mk true, Response.mk true] [cexQ (213/50000) 345, cexQ (13/5000) 611] ((0 : ℝ)) / secondDerivative [Response.mk true, Response.mk true] [cexQ (213/50000) 345, cexQ (13/5000) 611] ((0 : ℝ))) (1823347/10000000) (1823381/10000000) (1490887/10000000) (149091/1000000)
    hp_b2.1 hp_b2.2 (by norm_num) (by norm_num) (by norm_num) (by norm_num) (by norm_num)
  have hL2lo_b : ((-241/250000 : ℚ) : ℝ) ≤ secondDerivative [Response.mk true, Response.mk true] [cexQ (213/50000) 345, cexQ (13/5000) 611] ((0 : ℝ) - firstDerivative [Response.mk true, Response.mk true] [cexQ (213/50000) 345, cexQ (13/5000) 611] ((0 : ℝ)) / secondDerivative [Response.mk true, Response.mk true] [cexQ (213/50000) 345, cexQ (13/5000) 611] ((0 : ℝ))) := by
    rw [secondDerivative_pair]
    have h1 := hs_b1.1
    have h2 := hs_b2.1
    have hc : ((-241/250000 : ℚ) : ℝ) ≤ -(((213/50000 : ℚ) : ℝ) * ((213/50000 : ℚ) : ℝ)) / (((829209/5000000 : ℚ) : ℝ) * ((829209/5000000 : ℚ) : ℝ)) + -(((13/5000 : ℚ) : ℝ) * ((13/5000 : ℚ) : ℝ)) / (((1490887/10000000 : ℚ) : ℝ) * ((1490887/10000000 : ℚ) : ℝ)) := by
      push_cast
      norm_num
    linarith
  have hL2hi_b : secondDerivative [Response.mk true, Response.mk true] [cexQ (213/50000) 345, cexQ (13/5000) 611] ((0 : ℝ) - firstDerivative [Response.mk true, Response.mk true] [cexQ (213/50000) 345, cexQ (13/5000) 611] ((0 : ℝ)) / secondDerivative [Response.mk true, Response.mk true] [cexQ (213/50000) 345, cexQ (13/5000) 611] ((0 : ℝ))) ≤ ((-9639/10000000 : ℚ) : ℝ) := by
    rw [secondDerivative_pair]
    have h1 := hs_b1.2
    have h2 := hs_b2.2
    have hc : -(((213/50000 : ℚ) : ℝ) * ((213/50000 : ℚ) : ℝ)) / (((103653/625000 : ℚ) : ℝ) * ((103653/625000 : ℚ) : ℝ)) + -(((13/5000 : ℚ) : ℝ) * ((13/5000 : ℚ) : ℝ)) / (((149091/1000000 : ℚ) : ℝ) * ((149091/1000000 : ℚ) : ℝ)) ≤ ((-9639/10000000 : ℚ) : ℝ) := by
      push_cast
      norm_num
    linarith
  have hflat_b : |secondDerivative [Response.mk true, Response.mk true] [cexQ (213/50000) 345, cexQ (13/5000) 611] ((0 : ℝ) - firstDerivative [Response.mk true, Response.mk true] [cexQ (213/50000) 345, cexQ (13/5000) 611] ((0 : ℝ)) / secondDerivative [Response.mk true, Response.mk true] [cexQ (213/50000) 345, cexQ (13/5000) 611] ((0 : ℝ)))| < tolerance := by
    apply flat_of_bounds
    · have h := hL2lo_b
      have hc : -tolerance < ((-241/250000 : ℚ) : ℝ) := by
        simp only [tolerance]
        push_cast
        norm_num
      linarith
    · have h := hL2hi_b
      have hc : ((-9639/10000000 : ℚ) : ℝ) < tolerance := by
        simp only [tolerance]
        push_cast
        norm_num
      linarith
  have htt_c_lo : ((0 : ℚ) : ℝ) ≤ (0 : ℝ) := h00lo
  have htt_c_hi : (0 : ℝ) ≤ ((0 : ℚ) : ℝ) := h00hi
  have hexlo_c1 : ((4347911/1000000 : ℚ) : ℝ) ≤ Real.exp (((213/50000 : ℚ) : ℝ) * (((345 : ℚ) : ℝ) - ((0 : ℚ) : ℝ))) := by
    have harg : ((213/50000 : ℚ) : ℝ) * (((345 : ℚ) : ℝ) - ((0 : ℚ) : ℝ)) = (14697/10000 : ℝ) := by
      push_cast
      norm_num
    rw [harg]
    have h := expAux1
    push_cast
    linarith
  have hexhi_c1 : Real.exp (((213/50000 : ℚ) : ℝ) * (((345 : ℚ) : ℝ) - ((0 : ℚ) : ℝ))) ≤ ((43479309/10000000 : ℚ) : ℝ) := by
    have harg : ((213/50000 : ℚ) : ℝ) * (((345 : ℚ) : ℝ) - ((0 : ℚ) : ℝ)) = (14697/10000 : ℝ) := by
      push_cast
      norm_num
    rw [harg]
    have h := expAux2
    push_cast
    linarith
  have hp_c1 := prob_bounds_cexQ (213/50000) (345) ((0 : ℝ)) (0) (0) (4347911/1000000) (43479309/10000000) (934941/5000000) (186989/1000000)
    h00lo h00hi (by norm_num) hexlo_c1 hexhi_c1
    (by norm_num) (by norm_num) (by norm_num) (by norm_num) (by norm_num)
  have hs_c1 := secondTerm_bounds_cexQ (213/50000) (345) ((0 : ℝ)) (934941/5000000) (186989/1000000) (380059/2500000) (760121/5000000)
    hp_c1.1 hp_c1.2 (by norm_num) (by norm_num) (by norm_num) (by norm_num) (by norm_num)
  have hexlo_c2 : ((24484249/5000000 : ℚ) : ℝ) ≤ Real.exp (((13/5000 : ℚ) : ℝ) * (((611 : ℚ) : ℝ) - ((0 : ℚ) : ℝ))) := by
    have harg : ((13/5000 : ℚ) : ℝ) * (((611 : ℚ) : ℝ) - ((0 : ℚ) : ℝ)) = (7943/5000 : ℝ) := by
      push_cast
      norm_num
    rw [harg]
    have h := expAux3
    push_cast
    linarith
  have hexhi_c2 : Real.exp (((13/5000 : ℚ) : ℝ) * (((611 : ℚ) : ℝ) - ((0 : ℚ) : ℝ))) ≤ ((4896889/1000000 : ℚ) : ℝ) := by
    have harg : ((13/5000 : ℚ) : ℝ) * (((611 : ℚ) : ℝ) - ((0 : ℚ) : ℝ)) = (7943/5000 : ℝ) := by
      push_cast
      norm_num
    rw [harg]
    have h := expAux4
    push_cast
    linarith
  have hp_c2 := prob_bounds_cexQ (13/5000) (611) ((0 : ℝ)) (0) (0) (24484249/5000000) (4896889/1000000) (1695809/10000000) (1695821/10000000)
    h00lo h00hi (by norm_num) hexlo_c2 hexhi_c2
    (by norm_num) (by norm_num) (by norm_num) (by norm_num) (by norm_num)
  have hs_c2 := secondTerm_bounds_cexQ (13/5000) (611) ((0 : ℝ)) (1695809/10000000) (1695821/10000000) (176029/1250000) (1408241/10000000)
    hp_c2.1 hp_c2.2 (by norm_num) (by norm_num) (by norm_num) (by norm_num) (by norm_num)
  have hf_c1 := firstTerm_one_bounds_cexQ (213/50000) (345) ((0 : ℝ)) (934941/5000000) (186989/1000000)
    hp_c1.1 hp_c1.2 (by norm_num) (by norm_num) (by norm_num)
  have hf_c2 := firstTerm_zero_bounds_cexQ (13/5000) (611) ((0 : ℝ)) (1695809/10000000) (1695821/10000000)
    hp_c2.1 hp_c2.2 (by norm_num) (by norm_num) (by norm_num)
  have hL2lo_c : ((-5631/5000000 : ℚ) : ℝ) ≤ secondDerivative [Response.mk true, Response.mk false] [cexQ (213/50000) 345, cexQ (13/5000) 611] ((0 : ℝ)) := by
    rw [secondDerivative_pair]
    have h1 := hs_c1.1
    have h2 := hs_c2.1
    have hc : ((-5631/5000000 : ℚ) : ℝ) ≤ -(((213/50000 : ℚ) : ℝ) * ((213/50000 : ℚ) : ℝ)) / (((380059/2500000 : ℚ) : ℝ) * ((380059/2500000 : ℚ) : ℝ)) + -(((13/5000 : ℚ) : ℝ) * ((13/5000 : ℚ) : ℝ)) / (((176029/1250000 : ℚ) : ℝ) * ((176029/1250000 : ℚ) : ℝ)) := by
      push_cast
      norm_num
    linarith
  have hL2hi_c : secondDerivative [Response.mk true, Response.mk false] [cexQ (213/50000) 345, cexQ (13/5000) 611] ((0 : ℝ)) ≤ ((-563/500000 : ℚ) : ℝ) := by
    rw [secondDerivative_pair]
    have h1 := hs_c1.2
    have h2 := hs_c2.2
    have hc : -(((213/50000 : ℚ) : ℝ) * ((213/50000 : ℚ) : ℝ)) / (((760121/5000000 : ℚ) : ℝ) * ((760121/5000000 : ℚ) : ℝ)) + -(((13/5000 : ℚ) : ℝ) * ((13/5000 : ℚ) : ℝ)) / (((1408241/10000000 : ℚ) : ℝ) * ((1408241/10000000 : ℚ) : ℝ)) ≤ ((-563/500000 : ℚ) : ℝ) := by
      push_cast
      norm_num
    linarith
  have hL1lo_c : ((196511/10000000 : ℚ) : ℝ) ≤ firstDerivative [Response.mk true, Response.mk false] [cexQ (213/50000) 345, cexQ (13/5000) 611] ((0 : ℝ)) := by
    rw [firstDerivative_pair]
    have h1 := hf_c1.1
    have h2 := hf_c2.1
    have hc : ((196511/10000000 : ℚ) : ℝ) ≤ ((213/50000 : ℚ) : ℝ) / ((186989/1000000 : ℚ) : ℝ) + -(((13/5000 : ℚ) : ℝ) / (1 - ((1695821/10000000 : ℚ) : ℝ))) := by
      push_cast
      norm_num
    linarith
  have hL1hi_c : firstDerivative [Response.mk true, Response.mk false] [cexQ (213/50000) 345, cexQ (13/5000) 611] ((0 : ℝ)) ≤ ((196513/10000000 : ℚ) : ℝ) := by
    rw [firstDerivative_pair]
    have h1 := hf_c1.2
    have h2 := hf_c2.2
    have hc : ((213/50000 : ℚ) : ℝ) / ((934941/5000000 : ℚ) : ℝ) + -(((13/5000 : ℚ) : ℝ) / (1 - ((1695809/10000000 : ℚ) : ℝ))) ≤ ((196513/10000000 : ℚ) : ℝ) := by
      push_cast
      norm_num
    linarith
  have hnf_c : ¬(|secondDerivative [Response.mk true, Response.mk false] [cexQ (213/50000) 345, cexQ (13/5000) 611] ((0 : ℝ))| < tolerance) := by
    apply not_flat_of_le
    have h := hL2hi_c
    have hc : ((-563/500000 : ℚ) : ℝ) ≤ -tolerance := by
      simp only [tolerance]
      push_cast
      norm_num
    linarith
  have hstep_c := newton_step_bounds (firstDerivative [Response.mk true, Response.mk false] [cexQ (213/50000) 345, cexQ (13/5000) 611] ((0 : ℝ))) (secondDerivative [Response.mk true, Response.mk false] [cexQ (213/50000) 345, cexQ (13/5000) 611] ((0 : ℝ))) ((196511/10000000 : ℚ) : ℝ) ((196513/10000000 : ℚ) : ℝ) ((-5631/5000000 : ℚ) : ℝ) ((-563/500000 : ℚ) : ℝ)
    hL1lo_c hL1hi_c hL2lo_c hL2hi_c
    (by push_cast; norm_num) (by push_cast; norm_num)
  have hns_c : ¬(|(0 : ℝ) - firstDerivative [Response.mk true, Response.mk false] [cexQ (213/50000) 345, cexQ (13/5000) 611] ((0 : ℝ)) / secondDerivative [Response.mk true, Response.mk false] [cexQ (213/50000) 345, cexQ (13/5000) 611] ((0 : ℝ)) - ((0 : ℝ))| < tolerance) := by
    apply step_not_small
    have heq : (0 : ℝ) - firstDerivative [Response.mk true, Response.mk false] [cexQ (213/50000) 345, cexQ (13/5000) 611] ((0 : ℝ)) / secondDerivative [Response.mk true, Response.mk false] [cexQ (213/50000) 345, cexQ (13/5000) 611] ((0 : ℝ)) - ((0 : ℝ)) = -(firstDerivative [Response.mk true, Response.mk false] [cexQ (213/50000) 345, cexQ (13/5000) 611] ((0 : ℝ)) / secondDerivative [Response.mk true, Response.mk false] [cexQ (213/50000) 345, cexQ (13/5000) 611] ((0 : ℝ))) := by
      ring
    rw [heq]
    have h := hstep_c.1
    have hc : tolerance ≤ ((196511/10000000 : ℚ) : ℝ) / (-((-5631/5000000 : ℚ) : ℝ)) := by
      simp only [tolerance]
      push_cast
      norm_num
    linarith
  have htlo_c : ((1744903/100000 : ℚ) : ℝ) ≤ (0 : ℝ) - firstDerivative [Response.mk true, Response.mk false] [cexQ (213/50000) 345, cexQ (13/5000) 611] ((0 : ℝ)) / secondDerivative [Response.mk true, Response.mk false] [cexQ (213/50000) 345, cexQ (13/5000) 611] ((0 : ℝ)) := by
    have h := hstep_c.1
    have heq : (0 : ℝ) - firstDerivative [Response.mk true, Response.mk false] [cexQ (213/50000) 345, cexQ (13/5000) 611] ((0 : ℝ)) / secondDerivative [Response.mk true, Response.mk false] [cexQ (213/50000) 345, cexQ (13/5000) 611] ((0 : ℝ)) = ((0 : ℝ)) + -(firstDerivative [Response.mk true, Response.mk false] [cexQ (213/50000) 345, cexQ (13/5000) 611] ((0 : ℝ)) / secondDerivative [Response.mk true, Response.mk false] [cexQ (213/50000) 345, cexQ (13/5000) 611] ((0 : ℝ))) := by
      ring
    rw [heq]
    have hc : ((1744903/100000 : ℚ) : ℝ) ≤ ((0 : ℚ) : ℝ) + ((196511/10000000 : ℚ) : ℝ) / (-((-5631/5000000 : ℚ) : ℝ)) := by
      push_cast
      norm_num
    linarith [htt_c_lo]
  have hthi_c : (0 : ℝ) - firstDerivative [Response.mk true, Response.mk false] [cexQ (213/50000) 345, cexQ (13/5000) 611] ((0 : ℝ)) / secondDerivative [Response.mk true, Response.mk false] [cexQ (213/50000) 345, cexQ (13/5000) 611] ((0 : ℝ)) ≤ ((1745231/100000 : ℚ) : ℝ) := by
    have h := hstep_c.2
    have heq : (0 : ℝ) - firstDerivative [Response.mk true, Response.mk false] [cexQ (213/50000) 345, cexQ (13/5000) 611] ((0 : ℝ)) / secondDerivative [Response.mk true, Response.mk false] [cexQ (213/50000) 345, cexQ (13/5000) 611] ((0 : ℝ)) = ((0 : ℝ)) + -(firstDerivative [Response.mk true, Response.mk false] [cexQ (213/50000) 345, cexQ (13/5000) 611] ((0 : ℝ)) / secondDerivative [Response.mk true, Response.mk false] [cexQ (213/50000) 345, cexQ (13/5000) 611] ((0 : ℝ))) := by
      ring
    rw [heq]
    have hc : ((0 : ℚ) : ℝ) + ((196513/10000000 : ℚ) : ℝ) / (-((-563/500000 : ℚ) : ℝ)) ≤ ((1745231/100000 : ℚ) : ℝ) := by
      push_cast
      norm_num
    linarith [htt_c_hi]
  have htt_d_lo : ((1744903/100000 : ℚ) : ℝ) ≤ (0 : ℝ) - firstDerivative [Response.mk true, Response.mk false] [cexQ (213/50000) 345, cexQ (13/5000) 611] ((0 : ℝ)) / secondDerivative [Response.mk true, Response.mk false] [cexQ (213/50000) 345, cexQ (13/5000) 611] ((0 : ℝ)) := htlo_c
  have htt_d_hi : (0 : ℝ) - firstDerivative [Response.mk true, Response.mk false] [cexQ (213/50000) 345, cexQ (13/5000) 611] ((0 : ℝ)) / secondDerivative [Response.mk true, Response.mk false] [cexQ (213/50000) 345, cexQ (13/5000) 611] ((0 : ℝ)) ≤ ((1745231/100000 : ℚ) : ℝ) := hthi_c
  have hexlo_d1 : ((20181937/5000000 : ℚ) : ℝ) ≤ Real.exp (((213/50000 : ℚ) : ℝ) * (((345 : ℚ) : ℝ) - ((1745231/100000 : ℚ) : ℝ))) := by
    have harg : ((213/50000 : ℚ) : ℝ) * (((345 : ℚ) : ℝ) - ((1745231/100000 : ℚ) : ℝ)) = (6976765797/5000000000 : ℝ) := by
      push_cast
      norm_num
    rw [harg]
    have h := expAux9
    push_cast
    linarith
  have hexhi_d1 : Real.exp (((213/50000 : ℚ) : ℝ) * (((345 : ℚ) : ℝ) - ((1744903/100000 : ℚ) : ℝ))) ≤ ((8072913/2000000 : ℚ) : ℝ) := by
    have harg : ((213/50000 : ℚ) : ℝ) * (((345 : ℚ) : ℝ) - ((1744903/100000 : ℚ) : ℝ)) = (6976835661/5000000000 : ℝ) := by
      push_cast
      norm_num
    rw [harg]
    have h := expAux10
    push_cast
    linarith
  have hp_d1 := prob_bounds_cexQ (213/50000) (345) ((0 : ℝ) - firstDerivative [Response.mk true, Response.mk false] [cexQ (213/50000) 345, cexQ (13/5000) 611] ((0 : ℝ)) / secondDerivative [Response.mk true, Response.mk false] [cexQ (213/50000) 345, cexQ (13/5000) 611] ((0 : ℝ))) (1744903/100000) (1745231/100000) (20181937/5000000) (8072913/2000000) (992761/5000000) (1985551/10000000)
    htt_d_lo htt_d_hi (by norm_num) hexlo_d1 hexhi_d1
    (by norm_num) (by norm_num) (by norm_num) (by norm_num) (by norm_num)
  have hs_d1 := secondTerm_bounds_cexQ (213/50000) (345) ((0 : ℝ) - firstDerivative [Response.mk true, Response.mk false] [cexQ (213/50000) 345, cexQ (13/5000) 611] ((0 : ℝ)) / secondDerivative [Response.mk true, Response.mk false] [cexQ (213/50000) 345, cexQ (13/5000) 611] ((0 : ℝ))) (992761/5000000) (1985551/10000000) (397823/2500000) (159131/1000000)
    hp_d1.1 hp_d1.2 (by norm_num) (by norm_num) (by norm_num) (by norm_num) (by norm_num)
  have hexlo_d2 : ((5849529/1250000 : ℚ) : ℝ) ≤ Real.exp (((13/5000 : ℚ) : ℝ) * (((611 : ℚ) : ℝ) - ((1745231/100000 : ℚ) : ℝ))) := by
    have harg : ((13/5000 : ℚ) : ℝ) * (((611 : ℚ) : ℝ) - ((1745231/100000 : ℚ) : ℝ)) = (771611997/500000000 : ℝ) := by
      push_cast
      norm_num
    rw [harg]
    have h := expAux11
    push_cast
    linarith
  have hexhi_d2 : Real.exp (((13/5000 : ℚ) : ℝ) * (((611 : ℚ) : ℝ) - ((1744903/100000 : ℚ) : ℝ))) ≤ ((9359387/2000000 : ℚ) : ℝ) := by
    have harg : ((13/5000 : ℚ) : ℝ) * (((611 : ℚ) : ℝ) - ((1744903/100000 : ℚ) : ℝ)) = (771616261/500000000 : ℝ) := by
      push_cast
      norm_num
    rw [harg]
    have h := expAux12
    push_cast
    linarith
  have hp_d2 := prob_bounds_cexQ (13/5000) (611) ((0 : ℝ) - firstDerivative [Response.mk true, Response.mk false] [cexQ (213/50000) 345, cexQ (13/5000) 611] ((0 : ℝ)) / secondDerivative [Response.mk true, Response.mk false] [cexQ (213/50000) 345, cexQ (13/5000) 611] ((0 : ℝ))) (1744903/100000) (1745231/100000) (5849529/1250000) (9359387/2000000) (880329/5000000) (1760681/10000000)
    htt_d_lo htt_d_hi (by norm_num) hexlo_d2 hexhi_d2
    (by norm_num) (by norm_num) (by norm_num) (by norm_num) (by norm_num)
  have hs_d2 := secondTerm_bounds_cexQ (13/5000) (611) ((0 : ℝ) - firstDerivative [Response.mk true, Response.mk false] [cexQ (213/50000) 345, cexQ (13/5000) 611] ((0 : ℝ)) / secondDerivative [Response.mk true, Response.mk false] [cexQ (213/50000) 345, cexQ (13/5000) 611] ((0 : ℝ))) (880329/5000000) (1760681/10000000) (725333/5000000) (725341/5000000)
    hp_d2.1 hp_d2.2 (by norm_num) (by norm_num) (by norm_num) (by norm_num) (by norm_num)
  have hf_d1 := firstTerm_one_bounds_cexQ (213/50000) (345) ((0 : ℝ) - firstDerivative [Response.mk true, Response.mk false] [cexQ (213/50000) 345, cexQ (13/5000) 611] ((0 : ℝ)) / secondDerivative [Response.mk true, Response.mk false] [cexQ (213/50000) 345, cexQ (13/5000) 611] ((0 : ℝ))) (992761/5000000) (1985551/10000000)
    hp_d1.1 hp_d1.2 (by norm_num) (by norm_num) (by norm_num)
  have hf_d2 := firstTerm_zero_bounds_cexQ (13/5000) (611) ((0 : ℝ) - firstDerivative [Response.mk true, Response.mk false] [cexQ (213/50000) 345, cexQ (13/5000) 611] ((0 : ℝ)) / secondDerivative [Response.mk true, Response.mk false] [cexQ (213/50000) 345, cexQ (13/5000) 611] ((0 : ℝ))) (880329/5000000) (1760681/10000000)
    hp_d2.1 hp_d2.2 (by norm_num) (by norm_num) (by norm_num)
  have hL2lo_d : ((-10379/10000000 : ℚ) : ℝ) ≤ secondDerivative [Response.mk true, Response.mk false] [cexQ (213/50000) 345, cexQ (13/5000) 611] ((0 : ℝ) - firstDerivative [Response.mk true, Response.mk false] [cexQ (213/50000) 345, cexQ (13/5000) 611] ((0 : ℝ)) / secondDerivative [Response.mk true, Response.mk false] [cexQ (213/50000) 345, cexQ (13/5000) 611] ((0 : ℝ))) := by
    rw [secondDerivative_pair]
    have h1 := hs_d1.1
    have h2 := hs_d2.1
    have hc : ((-10379/10000000 : ℚ) : ℝ) ≤ -(((213/50000 : ℚ) : ℝ) * ((213/50000 : ℚ) : ℝ)) / (((397823/2500000 : ℚ) : ℝ) * ((397823/2500000 : ℚ) : ℝ)) + -(((13/5000 : ℚ) : ℝ) * ((13/5000 : ℚ) : ℝ)) / (((725333/5000000 : ℚ) : ℝ) * ((725333/5000000 : ℚ) : ℝ)) := by
      push_cast
      norm_num
    linarith
  have hL2hi_d : secondDerivative [Response.mk true, Response.mk false] [cexQ (213/50000) 345, cexQ (13/5000) 611] ((0 : ℝ) - firstDerivative [Response.mk true, Response.mk false] [cexQ (213/50000) 345, cexQ (13/5000) 611] ((0 : ℝ)) / secondDerivative [Response.mk true, Response.mk false] [cexQ (213/50000) 345, cexQ (13/5000) 611] ((0 : ℝ))) ≤ ((-5189/5000000 : ℚ) : ℝ) := by
    rw [secondDerivative_pair]
    have h1 := hs_d1.2
    have h2 := hs_d2.2
    have hc : -(((213/50000 : ℚ) : ℝ) * ((213/50000 : ℚ) : ℝ)) / (((159131/1000000 : ℚ) : ℝ) * ((159131/1000000 : ℚ) : ℝ)) + -(((13/5000 : ℚ) : ℝ) * ((13/5000 : ℚ) : ℝ)) / (((725341/5000000 : ℚ) : ℝ) * ((725341/5000000 : ℚ) : ℝ)) ≤ ((-5189/5000000 : ℚ) : ℝ) := by
      push_cast
      norm_num
    linarith
  have hL1lo_d : ((91497/5000000 : ℚ) : ℝ) ≤ firstDerivative [Response.mk true, Response.mk false] [cexQ (213/50000) 345, cexQ (13/5000) 611] ((0 : ℝ) - firstDerivative [Response.mk true, Response.mk false] [cexQ (213/50000) 345, cexQ (13/5000) 611] ((0 : ℝ)) / secondDerivative [Response.mk true, Response.mk false] [cexQ (213/50000) 345, cexQ (13/5000) 611] ((0 : ℝ))) := by
    rw [firstDerivative_pair]
    have h1 := hf_d1.1
    have h2 := hf_d2.1
    have hc : ((91497/5000000 : ℚ) : ℝ) ≤ ((213/50000 : ℚ) : ℝ) / ((1985551/10000000 : ℚ) : ℝ) + -(((13/5000 : ℚ) : ℝ) / (1 - ((1760681/10000000 : ℚ) : ℝ))) := by
      push_cast
      norm_num
    linarith
  have hL1hi_d : firstDerivative [Response.mk true, Response.mk false] [cexQ (213/50000) 345, cexQ (13/5000) 611] ((0 : ℝ) - firstDerivative [Response.mk true, Response.mk false] [cexQ (213/50000) 345, cexQ (13/5000) 611] ((0 : ℝ)) / secondDerivative [Response.mk true, Response.mk false] [cexQ (213/50000) 345, cexQ (13/5000) 611] ((0 : ℝ))) ≤ ((91499/5000000 : ℚ) : ℝ) := by
    rw [firstDerivative_pair]
    have h1 := hf_d1.2
    have h2 := hf_d2.2
    have hc : ((213/50000 : ℚ) : ℝ) / ((992761/5000000 : ℚ) : ℝ) + -(((13/5000 : ℚ) : ℝ) / (1 - ((880329/5000000 : ℚ) : ℝ))) ≤ ((91499/5000000 : ℚ) : ℝ) := by
      push_cast
      norm_num
    linarith
  have hnf_d : ¬(|secondDerivative [Response.mk true, Response.mk false] [cexQ (213/50000) 345, cexQ (13/5000) 611] ((0 : ℝ) - firstDerivative [Response.mk true, Response.mk false] [cexQ (213/50000) 345, cexQ (13/5000) 611] ((0 : ℝ)) / secondDerivative [Response.mk true, Response.mk false] [cexQ (213/50000) 345, cexQ (13/5000) 611] ((0 : ℝ)))| < tolerance) := by
    apply not_flat_of_le
    have h := hL2hi_d
    have hc : ((-5189/5000000 : ℚ) : ℝ) ≤ -tolerance := by
      simp only [tolerance]
      push_cast
      norm_num
    linarith
  have hstep_d := newton_step_bounds (firstDerivative [Response.mk true, Response.mk false] [cexQ (213/50000) 345, cexQ (13/5000) 611] ((0 : ℝ) - firstDerivative [Response.mk true, Response.mk false] [cexQ (213/50000) 345, cexQ (13/5000) 611] ((0 : ℝ)) / secondDerivative [Response.mk true, Response.mk false] [cexQ (213/50000) 345, cexQ (13/5000) 611] ((0 : ℝ)))) (secondDerivative [Response.mk true, Response.mk false] [cexQ (213/50000) 345, cexQ (13/5000) 611] ((0 : ℝ) - firstDerivative [Response.mk true, Response.mk false] [cexQ (213/50000) 345, cexQ (13/5000) 611] ((0 : ℝ)) / secondDerivative [Response.mk true, Response.mk false] [cexQ (213/50000) 345, cexQ (13/5000) 611] ((0 : ℝ)))) ((91497/5000000 : ℚ) : ℝ) ((91499/5000000 : ℚ) : ℝ) ((-10379/10000000 : ℚ) : ℝ) ((-5189/5000000 : ℚ) : ℝ)
    hL1lo_d hL1hi_d hL2lo_d hL2hi_d
    (by push_cast; norm_num) (by push_cast; norm_num)
  have hns_d : ¬(|(0 : ℝ) - firstDerivative [Response.mk true, Response.mk false] [cexQ (213/50000) 345, cexQ (13/5000) 611] ((0 : ℝ)) / secondDerivative [Response.mk true, Response.mk false] [cexQ (213/50000) 345, cexQ (13/5000) 611] ((0 : ℝ)) - firstDerivative [Response.mk true, Response.mk false] [cexQ (213/50000) 345, cexQ (13/5000) 611] ((0 : ℝ) - firstDerivative [Response.mk true, Response.mk false] [cexQ (213/50000) 345, cexQ (13/5000) 611] ((0 : ℝ)) / secondDerivative [Response.mk true, Response.mk false] [cexQ (213/50000) 345, cexQ (13/5000) 611] ((0 : ℝ))) / secondDerivative [Response.mk true, Response.mk false] [cexQ (213/50000) 345, cexQ (13/5000) 611] ((0 : ℝ) - firstDerivative [Response.mk true, Response.mk false] [cexQ (213/50000) 345, cexQ (13/5000) 611] ((0 : ℝ)) / secondDerivative [Response.mk true, Response.mk false] [cexQ (213/50000) 345, cexQ (13/5000) 611] ((0 : ℝ))) - ((0 : ℝ) - firstDerivative [Response.mk true, Response.mk false] [cexQ (213/50000) 345, cexQ (13/5000) 611] ((0 : ℝ)) / secondDerivative [Response.mk true, Response.mk false] [cexQ (213/50000) 345, cexQ (13/5000) 611] ((0 : ℝ)))| < tolerance) := by
    apply step_not_small
    have heq : (0 : ℝ) - firstDerivative [Response.mk true, Response.mk false] [cexQ (213/50000) 345, cexQ (13/5000) 611] ((0 : ℝ)) / secondDerivative [Response.mk true, Response.mk false] [cexQ (213/50000) 345, cexQ (13/5000) 611] ((0 : ℝ)) - firstDerivative [Response.mk true, Response.mk false] [cexQ (213/50000) 345, cexQ (13/5000) 611] ((0 : ℝ) - firstDerivative [Response.mk true, Response.mk false] [cexQ (213/50000) 345, cexQ (13/5000) 611] ((0 : ℝ)) / secondDerivative [Response.mk true, Response.mk false] [cexQ (213/50000) 345, cexQ (13/5000) 611] ((0 : ℝ))) / secondDerivative [Response.mk true, Response.mk false] [cexQ (213/50000) 345, cexQ (13/5000) 611] ((0 : ℝ) - firstDerivative [Response.mk true, Response.mk false] [cexQ (213/50000) 345, cexQ (13/5000) 611] ((0 : ℝ)) / secondDerivative [Response.mk true, Response.mk false] [cexQ (213/50000) 345, cexQ (13/5000) 611] ((0 : ℝ))) - ((0 : ℝ) - firstDerivative [Response.mk true, Response.mk false] [cexQ (213/50000) 345, cexQ (13/5000) 611] ((0 : ℝ)) / secondDerivative [Response.mk true, Response.mk false] [cexQ (213/50000) 345, cexQ (13/5000) 611] ((0 : ℝ))) = -(firstDerivative [Response.mk true, Response.mk false] [cexQ (213/50000) 345, cexQ (13/5000) 611] ((0 : ℝ) - firstDerivative [Response.mk true, Response.mk false] [cexQ (213/50000) 345, cexQ (13/5000) 611] ((0 : ℝ)) / secondDerivative [Response.mk true, Response.mk false] [cexQ (213/50000) 345, cexQ (13/5000) 611] ((0 : ℝ))) / secondDerivative [Response.mk true, Response.mk false] [cexQ (213/50000) 345, cexQ (13/5000) 611] ((0 : ℝ) - firstDerivative [Response.mk true, Response.mk false] [cexQ (213/50000) 345, cexQ (13/5000) 611] ((0 : ℝ)) / secondDerivative [Response.mk true, Response.mk false] [cexQ (213/50000) 345, cexQ (13/5000) 611] ((0 : ℝ)))) := by
      ring
    rw [heq]
    have h := hstep_d.1
    have hc : tolerance ≤ ((91497/5000000 : ℚ) : ℝ) / (-((-10379/10000000 : ℚ) : ℝ)) := by
      simp only [tolerance]
      push_cast
      norm_num
    linarith
  have htlo_d : ((175401/5000 : ℚ) : ℝ) ≤ (0 : ℝ) - firstDerivative [Response.mk true, Response.mk false] [cexQ (213/50000) 345, cexQ (13/5000) 611] ((0 : ℝ)) / secondDerivative [Response.mk true, Response.mk false] [cexQ (213/50000) 345, cexQ (13/5000) 611] ((0 : ℝ)) - firstDerivative [Response.mk true, Response.mk false] [cexQ (213/50000) 345, cexQ (13/5000) 611] ((0 : ℝ) - firstDerivative [Response.mk true, Response.mk false] [cexQ (213/50000) 345, cexQ (13/5000) 611] ((0 : ℝ)) / secondDerivative [Response.mk true, Response.mk false] [cexQ (213/50000) 345, cexQ (13/5000) 611] ((0 : ℝ))) / secondDerivative [Response.mk true, Response.mk false] [cexQ (213/50000) 345, cexQ (13/5000) 611] ((0 : ℝ) - firstDerivative [Response.mk true, Response.mk false] [cexQ (213/50000) 345, cexQ (13/5000) 611] ((0 : ℝ)) / secondDerivative [Response.mk true, Response.mk false] [cexQ (213/50000) 345, cexQ (13/5000) 611] ((0 : ℝ))) := by
    have h := hstep_d.1
    have heq : (0 : ℝ) - firstDerivative [Response.mk true, Response.mk false] [cexQ (213/50000) 345, cexQ (13/5000) 611] ((0 : ℝ)) / secondDerivative [Response.mk true, Response.mk false] [cexQ (213/50000) 345, cexQ (13/5000) 611] ((0 : ℝ)) - firstDerivative [Response.mk true, Response.mk false] [cexQ (213/50000) 345, cexQ (13/5000) 611] ((0 : ℝ) - firstDerivative [Response.mk true, Response.mk false] [cexQ (213/50000) 345, cexQ (13/5000) 611] ((0 : ℝ)) / secondDerivative [Response.mk true, Response.mk false] [cexQ (213/50000) 345, cexQ (13/5000) 611] ((0 : ℝ))) / secondDerivative [Response.mk true, Response.mk false] [cexQ (213/50000) 345, cexQ (13/5000) 611] ((0 : ℝ) - firstDerivative [Response.mk true, Response.mk false] [cexQ (213/50000) 345, cexQ (13/5000) 611] ((0 : ℝ)) / secondDerivative [Response.mk true, Response.mk false] [cexQ (213/50000) 345, cexQ (13/5000) 611] ((0 : ℝ))) = ((0 : ℝ) - firstDerivative [Response.mk true, Response.mk false] [cexQ (213/50000) 345, cexQ (13/5000) 611] ((0 : ℝ)) / secondDerivative [Response.mk true, Response.mk false] [cexQ (213/50000) 345, cexQ (13/5000) 611] ((0 : ℝ))) + -(firstDerivative [Response.mk true, Response.mk false] [cexQ (213/50000) 345, cexQ (13/5000) 611] ((0 : ℝ) - firstDerivative [Response.mk true, Response.mk false] [cexQ (213/50000) 345, cexQ (13/5000) 611] ((0 : ℝ)) / secondDerivative [Response.mk true, Response.mk false] [cexQ (213/50000) 345, cexQ (13/5000) 611] ((0 : ℝ))) / secondDerivative [Response.mk true, Response.mk false] [cexQ (213/50000) 345, cexQ (13/5000) 611] ((0 : ℝ) - firstDerivative [Response.mk true, Response.mk false] [cexQ (213/50000) 345, cexQ (13/5000) 611] ((0 : ℝ)) / secondDerivative [Response.mk true, Response.mk false] [cexQ (213/50000) 345, cexQ (13/5000) 611] ((0 : ℝ)))) := by
      ring
    rw [heq]
    have hc : ((175401/5000 : ℚ) : ℝ) ≤ ((1744903/100000 : ℚ) : ℝ) + ((91497/5000000 : ℚ) : ℝ) / (-((-10379/10000000 : ℚ) : ℝ)) := by
      push_cast
      norm_num
    linarith [htt_d_lo]
  have hthi_d : (0 : ℝ) - firstDerivative [Response.mk true, Response.mk false] [cexQ (213/50000) 345, cexQ (13/5000) 611] ((0 : ℝ)) / secondDerivative [Response.mk true, Response.mk false] [cexQ (213/50000) 345, cexQ (13/5000) 611] ((0 : ℝ)) - firstDerivative [Response.mk true, Response.mk false] [cexQ (213/50000) 345, cexQ (13/5000) 611] ((0 : ℝ) - firstDerivative [Response.mk true, Response.mk false] [cexQ (213/50000) 345, cexQ (13/5000) 611] ((0 : ℝ)) / secondDerivative [Response.mk true, Response.mk false] [cexQ (213/50000) 345, cexQ (13/5000) 611] ((0 : ℝ))) / secondDerivative [Response.mk true, Response.mk false] [cexQ (213/50000) 345, cexQ (13/5000) 611] ((0 : ℝ) - firstDerivative [Response.mk true, Response.mk false] [cexQ (213/50000) 345, cexQ (13/5000) 611] ((0 : ℝ)) / secondDerivative [Response.mk true, Response.mk false] [cexQ (213/50000) 345, cexQ (13/5000) 611] ((0 : ℝ))) ≤ ((1754279/50000 : ℚ) : ℝ) := by
    have h := hstep_d.2
    have heq : (0 : ℝ) - firstDerivative [Response.mk true, Response.mk false] [cexQ (213/50000) 345, cexQ (13/5000) 611] ((0 : ℝ)) / secondDerivative [Response.mk true, Response.mk false] [cexQ (213/50000) 345, cexQ (13/5000) 611] ((0 : ℝ)) - firstDerivative [Response.mk true, Response.mk false] [cexQ (213/50000) 345, cexQ (13/5000) 611] ((0 : ℝ) - firstDerivative [Response.mk true, Response.mk false] [cexQ (213/50000) 345, cexQ (13/5000) 611] ((0 : ℝ)) / secondDerivative [Response.mk true, Response.mk false] [cexQ (213/50000) 345, cexQ (13/5000) 611] ((0 : ℝ))) / secondDerivative [Response.mk true, Response.mk false] [cexQ (213/50000) 345, cexQ (13/5000) 611] ((0 : ℝ) - firstDerivative [Response.mk true, Response.mk false] [cexQ (213/50000) 345, cexQ (13/5000) 611] ((0 : ℝ)) / secondDerivative [Response.mk true, Response.mk false] [cexQ (213/50000) 345, cexQ (13/5000) 611] ((0 : ℝ))) = ((0 : ℝ) - firstDerivative [Response.mk true, Response.mk false] [cexQ (213/50000) 345, cexQ (13/5000) 611] ((0 : ℝ)) / secondDerivative [Response.mk true, Response.mk false] [cexQ (213/50000) 345, cexQ (13/5000) 611] ((0 : ℝ))) + -(firstDerivative [Response.mk true, Response.mk false] [cexQ (213/50000) 345, cexQ (13/5000) 611] ((0 : ℝ) - firstDerivative [Response.mk true, Response.mk false] [cexQ (213/50000) 345, cexQ (13/5000) 611] ((0 : ℝ)) / secondDerivative [Response.mk true, Response.mk false] [cexQ (213/50000) 345, cexQ (13/5000) 611] ((0 : ℝ))) / secondDerivative [Response.mk true, Response.mk false] [cexQ (213/50000) 345, cexQ (13/5000) 611] ((0 : ℝ) - firstDerivative [Response.mk true, Response.mk false] [cexQ (213/50000) 345, cexQ (13/5000) 611] ((0 : ℝ)) / secondDerivative [Response.mk true, Response.mk false] [cexQ (213/50000) 345, cexQ (13/5000) 611] ((0 : ℝ)))) := by
      ring
    rw [heq]
    have hc : ((1745231/100000 : ℚ) : ℝ) + ((91499/5000000 : ℚ) : ℝ) / (-((-5189/5000000 : ℚ) : ℝ)) ≤ ((1754279/50000 : ℚ) : ℝ) := by
      push_cast
      norm_num
    linarith [htt_d_hi]
  have htt_e_lo : ((175401/5000 : ℚ) : ℝ) ≤ (0 : ℝ) - firstDerivative [Response.mk true, Response.mk false] [cexQ (213/50000) 345, cexQ (13/5000) 611] ((0 : ℝ)) / secondDerivative [Response.mk true, Response.mk false] [cexQ (213/50000) 345, cexQ (13/5000) 611] ((0 : ℝ)) - firstDerivative [Response.mk true, Response.mk false] [cexQ (213/50000) 345, cexQ (13/5000) 611] ((0 : ℝ) - firstDerivative [Response.mk true, Response.mk false] [cexQ (213/50000) 345, cexQ (13/5000) 611] ((0 : ℝ)) / secondDerivative [Response.mk true, Response.mk false] [cexQ (213/50000) 345, cexQ (13/5000) 611] ((0 : ℝ))) / secondDerivative [Response.mk true, Response.mk false] [cexQ (213/50000) 345, cexQ (13/5000) 611] ((0 : ℝ) - firstDerivative [Response.mk true, Response.mk false] [cexQ (213/50000) 345, cexQ (13/5000) 611] ((0 : ℝ)) / secondDerivative [Response.mk true, Response.mk false] [cexQ (213/50000) 345, cexQ (13/5000) 611] ((0 : ℝ))) := htlo_d
  have htt_e_hi : (0 : ℝ) - firstDerivative [Response.mk true, Response.mk false] [cexQ (213/50000) 345, cexQ (13/5000) 611] ((0 : ℝ)) / secondDerivative [Response.mk true, Response.mk false] [cexQ (213/50000) 345, cexQ (13/5000) 611] ((0 : ℝ)) - firstDerivative [Response.mk true, Response.mk false] [cexQ (213/50000) 345, cexQ (13/5000) 611] ((0 : ℝ) - firstDerivative [Response.mk true, Response.mk false] [cexQ (213/50000) 345, cexQ (13/5000) 611] ((0 : ℝ)) / secondDerivative [Response.mk true, Response.mk false] [cexQ (213/50000) 345, cexQ (13/5000) 611] ((0 : ℝ))) / secondDerivative [Response.mk true, Response.mk false] [cexQ (213/50000) 345, cexQ (13/5000) 611] ((0 : ℝ) - firstDerivative [Response.mk true, Response.mk false] [cexQ (213/50000) 345, cexQ (13/5000) 611] ((0 : ℝ)) / secondDerivative [Response.mk true, Response.mk false] [cexQ (213/50000) 345, cexQ (13/5000) 611] ((0 : ℝ))) ≤ ((1754279/50000 : ℚ) : ℝ) := hthi_d
  have hexlo_e1 : ((37442951/10000000 : ℚ) : ℝ) ≤ Real.exp (((213/50000 : ℚ) : ℝ) * (((345 : ℚ) : ℝ) - ((1754279/50000 : ℚ) : ℝ))) := by
    have harg : ((213/50000 : ℚ) : ℝ) * (((345 : ℚ) : ℝ) - ((1754279/50000 : ℚ) : ℝ)) = (3300588573/2500000000 : ℝ) := by
      push_cast
      norm_num
    rw [harg]
    have h := expAux13
    push_cast
    linarith
  have hexhi_e1 : Real.exp (((213/50000 : ℚ) : ℝ) * (((345 : ℚ) : ℝ) - ((175401/5000 : ℚ) : ℝ))) ≤ ((2340243/625000 : ℚ) : ℝ) := by
    have harg : ((213/50000 : ℚ) : ℝ) * (((345 : ℚ) : ℝ) - ((175401/5000 : ℚ) : ℝ)) = (330064587/250000000 : ℝ) := by
      push_cast
      norm_num
    rw [harg]
    have h := expAux14
    push_cast
    linarith
  have hp_e1 := prob_bounds_cexQ (213/50000) (345) ((0 : ℝ) - firstDerivative [Response.mk true, Response.mk false] [cexQ (213/50000) 345, cexQ (13/5000) 611] ((0 : ℝ)) / secondDerivative [Response.mk true, Response.mk false] [cexQ (213/50000) 345, cexQ (13/5000) 611] ((0 : ℝ)) - firstDerivative [Response.mk true, Response.mk false] [cexQ (213/50000) 345, cexQ (13/5000) 611] ((0 : ℝ) - firstDerivative [Response.mk true, Response.mk false] [cexQ (213/50000) 345, cexQ (13/5000) 611] ((0 : ℝ)) / secondDerivative [Response.mk true, Response.mk false] [cexQ (213/50000) 345, cexQ (13/5000) 611] ((0 : ℝ))) / secondDerivative [Response.mk true, Response.mk false] [cexQ (213/50000) 345, cexQ (13/5000) 611] ((0 : ℝ) - firstDerivative [Response.mk true, Response.mk false] [cexQ (213/50000) 345, cexQ (13/5000) 611] ((0 : ℝ)) / secondDerivative [Response.mk true, Response.mk false] [cexQ (213/50000) 345, cexQ (13/5000) 611] ((0 : ℝ)))) (175401/5000) (1754279/50000) (37442951/10000000) (2340243/625000) (2107753/10000000) (421559/2000000)
    htt_e_lo htt_e_hi (by norm_num) hexlo_e1 hexhi_e1
    (by norm_num) (by norm_num) (by norm_num) (by norm_num) (by norm_num)
  have hs_e1 := secondTerm_bounds_cexQ (213/50000) (345) ((0 : ℝ) - firstDerivative [Response.mk true, Response.mk false] [cexQ (213/50000) 345, cexQ (13/5000) 611] ((0 : ℝ)) / secondDerivative [Response.mk true, Response.mk false] [cexQ (213/50000) 345, cexQ (13/5000) 611] ((0 : ℝ)) - firstDerivative [Response.mk true, Response.mk false] [cexQ (213/50000) 345, cexQ (13/5000) 611] ((0 : ℝ) - firstDerivative [Response.mk true, Response.mk false] [cexQ (213/50000) 345, cexQ (13/5000) 611] ((0 : ℝ)) / secondDerivative [Response.mk true, Response.mk false] [cexQ (213/50000) 345, cexQ (13/5000) 611] ((0 : ℝ))) / secondDerivative [Response.mk true, Response.mk false] [cexQ (213/50000) 345, cexQ (13/5000) 611] ((0 : ℝ) - firstDerivative [Response.mk true, Response.mk false] [cexQ (213/50000) 345, cexQ (13/5000) 611] ((0 : ℝ)) / secondDerivative [Response.mk true, Response.mk false] [cexQ (213/50000) 345, cexQ (13/5000) 611] ((0 : ℝ)))) (2107753/10000000) (421559/2000000) (166349/1000000) (415879/2500000)
    hp_e1.1 hp_e1.2 (by norm_num) (by norm_num) (by norm_num) (by norm_num) (by norm_num)
  have hexlo_e2 : ((22349641/5000000 : ℚ) : ℝ) ≤ Real.exp (((13/5000 : ℚ) : ℝ) * (((611 : ℚ) : ℝ) - ((1754279/50000 : ℚ) : ℝ))) := by
    have harg : ((13/5000 : ℚ) : ℝ) * (((611 : ℚ) : ℝ) - ((1754279/50000 : ℚ) : ℝ)) = (374344373/250000000 : ℝ) := by
      push_cast
      norm_num
    rw [harg]
    have h := expAux15
    push_cast
    linarith
  have hexhi_e2 : Real.exp (((13/5000 : ℚ) : ℝ) * (((611 : ℚ) : ℝ) - ((175401/5000 : ℚ) : ℝ))) ≤ ((44700141/10000000 : ℚ) : ℝ) := by
    have harg : ((13/5000 : ℚ) : ℝ) * (((611 : ℚ) : ℝ) - ((175401/5000 : ℚ) : ℝ)) = (37434787/25000000 : ℝ) := by
      push_cast
      norm_num
    rw [harg]
    have h := expAux16
    push_cast
    linarith
  have hp_e2 := prob_bounds_cexQ (13/5000) (611) ((0 : ℝ) - firstDerivative [Response.mk true, Response.mk false] [cexQ (213/50000) 345, cexQ (13/5000) 611] ((0 : ℝ)) / secondDerivative [Response.mk true, Response.mk false] [cexQ (213/50000) 345, cexQ (13/5000) 611] ((0 : ℝ)) - firstDerivative [Response.mk true, Response.mk false] [cexQ (213/50000) 345, cexQ (13/5000) 611] ((0 : ℝ) - firstDerivative [Response.mk true, Response.mk false] [cexQ (213/50000) 345, cexQ (13/5000) 611] ((0 : ℝ)) / secondDerivative [Response.mk true, Response.mk false] [cexQ (213/50000) 345, cexQ (13/5000) 611] ((0 : ℝ))) / secondDerivative [Response.mk true, Response.mk false] [cexQ (213/50000) 345, cexQ (13/5000) 611] ((0 : ℝ) - firstDerivative [Response.mk true, Response.mk false] [cexQ (213/50000) 345, cexQ (13/5000) 611] ((0 : ℝ)) / secondDerivative [Response.mk true, Response.mk false] [cexQ (213/50000) 345, cexQ (13/5000) 611] ((0 : ℝ)))) (175401/5000) (1754279/50000) (22349641/5000000) (44700141/10000000) (457037/2500000) (914089/5000000)
    htt_e_lo htt_e_hi (by norm_num) hexlo_e2 hexhi_e2
    (by norm_num) (by norm_num) (by norm_num) (by norm_num) (by norm_num)
  have hs_e2 := secondTerm_bounds_cexQ (13/5000) (611) ((0 : ℝ) - firstDerivative [Response.mk true, Response.mk false] [cexQ (213/50000) 345, cexQ (13/5000) 611] ((0 : ℝ)) / secondDerivative [Response.mk true, Response.mk false] [cexQ (213/50000) 345, cexQ (13/5000) 611] ((0 : ℝ)) - firstDerivative [Response.mk true, Response.mk false] [cexQ (213/50000) 345, cexQ (13/5000) 611] ((0 : ℝ) - firstDerivative [Response.mk true, Response.mk false] [cexQ (213/50000) 345, cexQ (13/5000) 611] ((0 : ℝ)) / secondDerivative [Response.mk true, Response.mk false] [cexQ (213/50000) 345, cexQ (13/5000) 611] ((0 : ℝ))) / secondDerivative [Response.mk true, Response.mk false] [cexQ (213/50000) 345, cexQ (13/5000) 611] ((0 : ℝ) - firstDerivative [Response.mk true, Response.mk false] [cexQ (213/50000) 345, cexQ (13/5000) 611] ((0 : ℝ)) / secondDerivative [Response.mk true, Response.mk false] [cexQ (213/50000) 345, cexQ (13/5000) 611] ((0 : ℝ)))) (457037/2500000) (914089/5000000) (298787/2000000) (298791/2000000)
    hp_e2.1 hp_e2.2 (by norm_num) (by norm_num) (by norm_num) (by norm_num) (by norm_num)
  have hL2lo_e : ((-2397/2500000 : ℚ) : ℝ) ≤ secondDerivative [Response.mk true, Response.mk false] [cexQ (213/50000) 345, cexQ (13/5000) 611] ((0 : ℝ) - firstDerivative [Response.mk true, Response.mk false] [cexQ (213/50000) 345, cexQ (13/5000) 611] ((0 : ℝ)) / secondDerivative [Response.mk true, Response.mk false] [cexQ (213/50000) 345, cexQ (13/5000) 611] ((0 : ℝ)) - firstDerivative [Response.mk true, Response.mk false] [cexQ (213/50000) 345, cexQ (13/5000) 611] ((0 : ℝ) - firstDerivative [Response.mk true, Response.mk false] [cexQ (213/50000) 345, cexQ (13/5000) 611] ((0 : ℝ)) / secondDerivative [Response.mk true, Response.mk false] [cexQ (213/50000) 345, cexQ (13/5000) 611] ((0 : ℝ))) / secondDerivative [Response.mk true, Response.mk false] [cexQ (213/50000) 345, cexQ (13/5000) 611] ((0 : ℝ) - firstDerivative [Response.mk true, Response.mk false] [cexQ (213/50000) 345, cexQ (13/5000) 611] ((0 : ℝ)) / secondDerivative [Response.mk true, Response.mk false] [cexQ (213/50000) 345, cexQ (13/5000) 611] ((0 : ℝ)))) := by
    rw [secondDerivative_pair]
    have h1 := hs_e1.1
    have h2 := hs_e2.1
    have hc : ((-2397/2500000 : ℚ) : ℝ) ≤ -(((213/50000 : ℚ) : ℝ) * ((213/50000 : ℚ) : ℝ)) / (((166349/1000000 : ℚ) : ℝ) * ((166349/1000000 : ℚ) : ℝ)) + -(((13/5000 : ℚ) : ℝ) * ((13/5000 : ℚ) : ℝ)) / (((298787/2000000 : ℚ) : ℝ) * ((298787/2000000 : ℚ) : ℝ)) := by
      push_cast
      norm_num
    linarith
  have hL2hi_e : secondDerivative [Response.mk true, Response.mk false] [cexQ (213/50000) 345, cexQ (13/5000) 611] ((0 : ℝ) - firstDerivative [Response.mk true, Response.mk false] [cexQ (213/50000) 345, cexQ (13/5000) 611] ((0 : ℝ)) / secondDerivative [Response.mk true, Response.mk false] [cexQ (213/50000) 345, cexQ (13/5000) 611] ((0 : ℝ)) - firstDerivative [Response.mk true, Response.mk false] [cexQ (213/50000) 345, cexQ (13/5000) 611] ((0 : ℝ) - firstDerivative [Response.mk true, Response.mk false] [cexQ (213/50000) 345, cexQ (13/5000) 611] ((0 : ℝ)) / secondDerivative [Response.mk true, Response.mk false] [cexQ (213/50000) 345, cexQ (13/5000) 611] ((0 : ℝ))) / secondDerivative [Response.mk true, Response.mk false] [cexQ (213/50000) 345, cexQ (13/5000) 611] ((0 : ℝ) - firstDerivative [Response.mk true, Response.mk false] [cexQ (213/50000) 345, cexQ (13/5000) 611] ((0 : ℝ)) / secondDerivative [Response.mk true, Response.mk false] [cexQ (213/50000) 345, cexQ (13/5000) 611] ((0 : ℝ)))) ≤ ((-4793/5000000 : ℚ) : ℝ) := by
    rw [secondDerivative_pair]
    have h1 := hs_e1.2
    have h2 := hs_e2.2
    have hc : -(((213/50000 : ℚ) : ℝ) * ((213/50000 : ℚ) : ℝ)) / (((415879/2500000 : ℚ) : ℝ) * ((415879/2500000 : ℚ) : ℝ)) + -(((13/5000 : ℚ) : ℝ) * ((13/5000 : ℚ) : ℝ)) / (((298791/2000000 : ℚ) : ℝ) * ((298791/2000000 : ℚ) : ℝ)) ≤ ((-4793/5000000 : ℚ) : ℝ) := by
      push_cast
      norm_num
    linarith
  have hflat_e : |secondDerivative [Response.mk true, Response.mk false] [cexQ (213/50000) 345, cexQ (13/5000) 611] ((0 : ℝ) - firstDerivative [Response.mk true, Response.mk false] [cexQ (213/50000) 345, cexQ (13/5000) 611] ((0 : ℝ)) / secondDerivative [Response.mk true, Response.mk false] [cexQ (213/50000) 345, cexQ (13/5000) 611] ((0 : ℝ)) - firstDerivative [Response.mk true, Response.mk false] [cexQ (213/50000) 345, cexQ (13/5000) 611] ((0 : ℝ) - firstDerivative [Response.mk true, Response.mk false] [cexQ (213/50000) 345, cexQ (13/5000) 611] ((0 : ℝ)) / secondDerivative [Response.mk true, Response.mk false] [cexQ (213/50000) 345, cexQ (13/5000) 611] ((0 : ℝ))) / secondDerivative [Response.mk true, Response.mk false] [cexQ (213/50000) 345, cexQ (13/5000) 611] ((0 : ℝ) - firstDerivative [Response.mk true, Response.mk false] [cexQ (213/50000) 345, cexQ (13/5000) 611] ((0 : ℝ)) / secondDerivative [Response.mk true, Response.mk false] [cexQ (213/50000) 345, cexQ (13/5000) 611] ((0 : ℝ))))| < tolerance := by
    apply flat_of_bounds
    · have h := hL2lo_e
      have hc : -tolerance < ((-2397/2500000 : ℚ) : ℝ) := by
        simp only [tolerance]
        push_cast
        norm_num
      linarith
    · have h := hL2hi_e
      have hc : ((-4793/5000000 : ℚ) : ℝ) < tolerance := by
        simp only [tolerance]
        push_cast
        norm_num
      linarith
  have hrun1 : estimate_ability [Response.mk true, Response.mk true] [cexQ (213/50000) 345, cexQ (13/5000) 611] = (0 : ℝ) - firstDerivative [Response.mk true, Response.mk true] [cexQ (213/50000) 345, cexQ (13/5000) 611] ((0 : ℝ)) / secondDerivative [Response.mk true, Response.mk true] [cexQ (213/50000) 345, cexQ (13/5000) 611] ((0 : ℝ)) := by
    rw [estimate_ability, if_neg (by decide)]
    show nrLoop [Response.mk true, Response.mk true] [cexQ (213/50000) 345, cexQ (13/5000) 611] (49 + 1) 0 = (0 : ℝ) - firstDerivative [Response.mk true, Response.mk true] [cexQ (213/50000) 345, cexQ (13/5000) 611] ((0 : ℝ)) / secondDerivative [Response.mk true, Response.mk true] [cexQ (213/50000) 345, cexQ (13/5000) 611] ((0 : ℝ))
    rw [nrLoop_step [Response.mk true, Response.mk true] [cexQ (213/50000) 345, cexQ (13/5000) 611] 49 0 hnf_a hns_a]
    show nrLoop [Response.mk true, Response.mk true] [cexQ (213/50000) 345, cexQ (13/5000) 611] (48 + 1) ((0 : ℝ) - firstDerivative [Response.mk true, Response.mk true] [cexQ (213/50000) 345, cexQ (13/5000) 611] ((0 : ℝ)) / secondDerivative [Response.mk true, Response.mk true] [cexQ (213/50000) 345, cexQ (13/5000) 611] ((0 : ℝ))) = (0 : ℝ) - firstDerivative [Response.mk true, Response.mk true] [cexQ (213/50000) 345, cexQ (13/5000) 611] ((0 : ℝ)) / secondDerivative [Response.mk true, Response.mk true] [cexQ (213/50000) 345, cexQ (13/5000) 611] ((0 : ℝ))
    exact nrLoop_flat hflat_b
  have hrun0 : estimate_ability [Response.mk true, Response.mk false] [cexQ (213/50000) 345, cexQ (13/5000) 611] = (0 : ℝ) - firstDerivative [Response.mk true, Response.mk false] [cexQ (213/50000) 345, cexQ (13/5000) 611] ((0 : ℝ)) / secondDerivative [Response.mk true, Response.mk false] [cexQ (213/50000) 345, cexQ (13/5000) 611] ((0 : ℝ)) - firstDerivative [Response.mk true, Response.mk false] [cexQ (213/50000) 345, cexQ (13/5000) 611] ((0 : ℝ) - firstDerivative [Response.mk true, Response.mk false] [cexQ (213/50000) 345, cexQ (13/5000) 611] ((0 : ℝ)) / secondDerivative [Response.mk true, Response.mk false] [cexQ (213/50000) 345, cexQ (13/5000) 611] ((0 : ℝ))) / secondDerivative [Response.mk true, Response.mk false] [cexQ (213/50000) 345, cexQ (13/5000) 611] ((0 : ℝ) - firstDerivative [Response.mk true, Response.mk false] [cexQ (213/50000) 345, cexQ (13/5000) 611] ((0 : ℝ)) / secondDerivative [Response.mk true, Response.mk false] [cexQ (213/50000) 345, cexQ (13/5000) 611] ((0 : ℝ))) := by
    rw [estimate_ability, if_neg (by decide)]
    show nrLoop [Response.mk true, Response.mk false] [cexQ (213/50000) 345, cexQ (13/5000) 611] (49 + 1) 0 = (0 : ℝ) - firstDerivative [Response.mk true, Response.mk false] [cexQ (213/50000) 345, cexQ (13/5000) 611] ((0 : ℝ)) / secondDerivative [Response.mk true, Response.mk false] [cexQ (213/50000) 345, cexQ (13/5000) 611] ((0 : ℝ)) - firstDerivative [Response.mk true, Response.mk false] [cexQ (213/50000) 345, cexQ (13/5000) 611] ((0 : ℝ) - firstDerivative [Response.mk true, Response.mk false] [cexQ (213/50000) 345, cexQ (13/5000) 611] ((0 : ℝ)) / secondDerivative [Response.mk true, Response.mk false] [cexQ (213/50000) 345, cexQ (13/5000) 611] ((0 : ℝ))) / secondDerivative [Response.mk true, Response.mk false] [cexQ (213/50000) 345, cexQ (13/5000) 611] ((0 : ℝ) - firstDerivative [Response.mk true, Response.mk false] [cexQ (213/50000) 345, cexQ (13/5000) 611] ((0 : ℝ)) / secondDerivative [Response.mk true, Response.mk false] [cexQ (213/50000) 345, cexQ (13/5000) 611] ((0 : ℝ)))
    rw [nrLoop_step [Response.mk true, Response.mk false] [cexQ (213/50000) 345, cexQ (13/5000) 611] 49 0 hnf_c hns_c]
    show nrLoop [Response.mk true, Response.mk false] [cexQ (213/50000) 345, cexQ (13/5000) 611] (48 + 1) ((0 : ℝ) - firstDerivative [Response.mk true, Response.mk false] [cexQ (213/50000) 345, cexQ (13/5000) 611] ((0 : ℝ)) / secondDerivative [Response.mk true, Response.mk false] [cexQ (213/50000) 345, cexQ (13/5000) 611] ((0 : ℝ))) = (0 : ℝ) - firstDerivative [Response.mk true, Response.mk false] [cexQ (213/50000) 345, cexQ (13/5000) 611] ((0 : ℝ)) / secondDerivative [Response.mk true, Response.mk false] [cexQ (213/50000) 345, cexQ (13/5000) 611] ((0 : ℝ)) - firstDerivative [Response.mk true, Response.mk false] [cexQ (213/50000) 345, cexQ (13/5000) 611] ((0 : ℝ) - firstDerivative [Response.mk true, Response.mk false] [cexQ (213/50000) 345, cexQ (13/5000) 611] ((0 : ℝ)) / secondDerivative [Response.mk true, Response.mk false] [cexQ (213/50000) 345, cexQ (13/5000) 611] ((0 : ℝ))) / secondDerivative [Response.mk true, Response.mk false] [cexQ (213/50000) 345, cexQ (13/5000) 611] ((0 : ℝ) - firstDerivative [Response.mk true, Response.mk false] [cexQ (213/50000) 345, cexQ (13/5000) 611] ((0 : ℝ)) / secondDerivative [Response.mk true, Response.mk false] [cexQ (213/50000) 345, cexQ (13/5000) 611] ((0 : ℝ)))
    rw [nrLoop_step [Response.mk true, Response.mk false] [cexQ (213/50000) 345, cexQ (13/5000) 611] 48 ((0 : ℝ) - firstDerivative [Response.mk true, Response.mk false] [cexQ (213/50000) 345, cexQ (13/5000) 611] ((0 : ℝ)) / secondDerivative [Response.mk true, Response.mk false] [cexQ (213/50000) 345, cexQ (13/5000) 611] ((0 : ℝ))) hnf_d hns_d]
    show nrLoop [Response.mk true, Response.mk false] [cexQ (213/50000) 345, cexQ (13/5000) 611] (47 + 1) ((0 : ℝ) - firstDerivative [Response.mk true, Response.mk false] [cexQ (213/50000) 345, cexQ (13/5000) 611] ((0 : ℝ)) / secondDerivative [Response.mk true, Response.mk false] [cexQ (213/50000) 345, cexQ (13/5000) 611] ((0 : ℝ)) - firstDerivative [Response.mk true, Response.mk false] [cexQ (213/50000) 345, cexQ (13/5000) 611] ((0 : ℝ) - firstDerivative [Response.mk true, Response.mk false] [cexQ (213/50000) 345, cexQ (13/5000) 611] ((0 : ℝ)) / secondDerivative [Response.mk true, Response.mk false] [cexQ (213/50000) 345, cexQ (13/5000) 611] ((0 : ℝ))) / secondDerivative [Response.mk true, Response.mk false] [cexQ (213/50000) 345, cexQ (13/5000) 611] ((0 : ℝ) - firstDerivative [Response.mk true, Response.mk false] [cexQ (213/50000) 345, cexQ (13/5000) 611] ((0 : ℝ)) / secondDerivative [Response.mk true, Response.mk false] [cexQ (213/50000) 345, cexQ (13/5000) 611] ((0 : ℝ)))) = (0 : ℝ) - firstDerivative [Response.mk true, Response.mk false] [cexQ (213/50000) 345, cexQ (13/5000) 611] ((0 : ℝ)) / secondDerivative [Response.mk true, Response.mk false] [cexQ (213/50000) 345, cexQ (13/5000) 611] ((0 : ℝ)) - firstDerivative [Response.mk true, Response.mk false] [cexQ (213/50000) 345, cexQ (13/5000) 611] ((0 : ℝ) - firstDerivative [Response.mk true, Response.mk false] [cexQ (213/50000) 345, cexQ (13/5000) 611] ((0 : ℝ)) / secondDerivative [Response.mk true, Response.mk false] [cexQ (213/50000) 345, cexQ (13/5000) 611] ((0 : ℝ))) / secondDerivative [Response.mk true, Response.mk false] [cexQ (213/50000) 345, cexQ (13/5000) 611] ((0 : ℝ) - firstDerivative [Response.mk true, Response.mk false] [cexQ (213/50000) 345, cexQ (13/5000) 611] ((0 : ℝ)) / secondDerivative [Response.mk true, Response.mk false] [cexQ (213/50000) 345, cexQ (13/5000) 611] ((0 : ℝ)))
    exact nrLoop_flat hflat_e
  rw [hrun1, hrun0]
  calc ((0 : ℝ) - firstDerivative [Response.mk true, Response.mk true] [cexQ (213/50000) 345, cexQ (13/5000) 611] ((0 : ℝ)) / secondDerivative [Response.mk true, Response.mk true] [cexQ (213/50000) 345, cexQ (13/5000) 611] ((0 : ℝ))) ≤ ((3384921/100000 : ℚ) : ℝ) := hthi_a
    _ < ((175401/5000 : ℚ) : ℝ) := by push_cast; norm_num
    _ ≤ ((0 : ℝ) - firstDerivative [Response.mk true, Response.mk false] [cexQ (213/50000) 345, cexQ (13/5000) 611] ((0 : ℝ)) / secondDerivative [Response.mk true, Response.mk false] [cexQ (213/50000) 345, cexQ (13/5000) 611] ((0 : ℝ)) - firstDerivative [Response.mk true, Response.mk false] [cexQ (213/50000) 345, cexQ (13/5000) 611] ((0 : ℝ) - firstDerivative [Response.mk true, Response.mk false] [cexQ (213/50000) 345, cexQ (13/5000) 611] ((0 : ℝ)) / secondDerivative [Response.mk true, Response.mk false] [cexQ (213/50000) 345, cexQ (13/5000) 611] ((0 : ℝ))) / secondDerivative [Response.mk true, Response.mk false] [cexQ (213/50000) 345, cexQ (13/5000) 611] ((0 : ℝ) - firstDerivative [Response.mk true, Response.mk false] [cexQ (213/50000) 345, cexQ (13/5000) 611] ((0 : ℝ)) / secondDerivative [Response.mk true, Response.mk false] [cexQ (213/50000) 345, cexQ (13/5000) 611] ((0 : ℝ)))) := htlo_d

end Adaptive
